import Mathlib

/-! VSLab remote arithmetic protocol.

A shallow embedding of the packet codec (`packetlib/packetlib.c`), of the
receive/validate/dispatch loop of the daemon (`server/vslabd.c`) and of the
client library (`client/vslabclib/vslabclib.c`).

Conventions of the embedding:

* an `unsigned int` is a `Nat` below `2 ^ 32`, an `int` is an `Int`; the
  conversions between the two are `to_unsigned` and `to_int` (two's complement
  wrap-around);
* a `char` buffer is a `List Nat` of bytes; a byte read from memory is taken
  modulo `256`;
* a pointer argument is a value passed in and returned; pointers are never
  `NULL`, so the `NULL` checks of the C functions have no branch here;
* the network, the timeout facility and the display are the environment: what
  happens in a receive (a timeout, a datagram, a failure of the call) is an
  argument (`RecvEvent`), what is handed to `sendto`, `tol_start_timeout` and
  `sevenseg_setch` is recorded; whether `sendto` succeeds is not modelled, its
  return value is not used by the code.
-/

namespace VSLab

/-! ## Machine integers -/

/-- Conversion of an `int` to `unsigned int`: reduction modulo `2 ^ 32`. -/
def to_unsigned (i : Int) : Nat := (i % 4294967296).toNat

/-- Conversion of an `unsigned int` to `int`: values from `2 ^ 31` on wrap to
the negative range. -/
def to_int (n : Nat) : Int :=
  if n % 4294967296 < 2147483648 then ((n % 4294967296 : Nat) : Int)
  else ((n % 4294967296 : Nat) : Int) - 4294967296

/-- Unsigned 32-bit multiplication. -/
def umul (a b : Nat) : Nat := (a * b) % 4294967296

/-- Unsigned 32-bit division (the divisor is not zero where the code divides). -/
def udiv (a b : Nat) : Nat := (a / b) % 4294967296

/-- Unary minus on an `unsigned int`. -/
def uneg (a : Nat) : Nat := (4294967296 - a % 4294967296) % 4294967296

/-! ## packetlib.h -/

def PL_PTYPE_REQ : Nat := 1
def PL_PTYPE_RSP : Nat := 2
def PL_PTYPE_ERR : Nat := 3

def PL_MODE_CLN : Nat := 1
def PL_MODE_SRV : Nat := 2

def PL_FID_MUL : Nat := 1
def PL_FID_DIV : Nat := 2

def PL_ERR_GENERALERROR : Int := 1
def PL_ERR_INVALIDTYPE : Int := 2
def PL_ERR_INVALIDMODE : Int := 3
def PL_ERR_FUNCEXECERROR : Int := 4
def PL_ERR_NOSUCHFUNCTION : Int := 5

def E_PL_NOERROR : Int := 0
def E_PL_NULLPTR : Int := 1
def E_PL_INSUFFICIENTBUFFER : Int := 2

def PL_PIDX_TYPE : Nat := 0
def PL_PIDX_MODE : Nat := 1 * 4
def PL_PIDX_FID : Nat := 2 * 4
def PL_PIDX_OP (x : Nat) : Nat := (3 + x) * 4

def PL_OPERAND_COUNT : Nat := 2

/-- The packet data structure `struct pl_data`: three `unsigned int` fields and
the array `unsigned int data[PL_OPERAND_COUNT]`. -/
structure pl_data where
  type : Nat
  mode : Nat
  function_id : Nat
  data : List Nat
  deriving DecidableEq

/-- The macro `PL_PACKETSIZE`, that is `sizeof(struct pl_data)`: four bytes for
each of the three scalar fields and for each operand. -/
def PL_PACKETSIZE : Nat := 4 + 4 + 4 + 4 * PL_OPERAND_COUNT

/-- A value of `struct pl_data` as C holds it: every field is a 32-bit unsigned
value and the operand array has `PL_OPERAND_COUNT` elements. -/
def pl_data.wf (d : pl_data) : Prop :=
  d.type < 4294967296 ∧ d.mode < 4294967296 ∧ d.function_id < 4294967296 ∧
  d.data.length = PL_OPERAND_COUNT ∧ ∀ x ∈ d.data, x < 4294967296

instance (d : pl_data) : Decidable d.wf := by
  unfold pl_data.wf; infer_instance

/-! ## packetlib.c -/

/-- The statement `*(int*)(&packet[k]) = htonl(x)`: the four bytes of the 32-bit
value `x` are stored from offset `k` on, in network order. -/
def store_htonl (packet : List Nat) (k : Nat) (x : Nat) : List Nat :=
  (((packet.set k (x / 16777216 % 256)).set (k + 1) (x / 65536 % 256)).set
    (k + 2) (x / 256 % 256)).set (k + 3) (x % 256)

/-- The expression `ntohl(*(int*)(&packet[k]))`: the 32-bit value whose bytes
stand from offset `k` on, in network order. -/
def load_ntohl (packet : List Nat) (k : Nat) : Nat :=
  packet.getD k 0 % 256 * 16777216 + packet.getD (k + 1) 0 % 256 * 65536 +
    packet.getD (k + 2) 0 % 256 * 256 + packet.getD (k + 3) 0 % 256

/-- Serialize a packet structure into the buffer `packet` of size `len`. Returns
the return value and the buffer. -/
def pl_make_packet (data : pl_data) (packet : List Nat) (len : Nat) : Int × List Nat :=
  if len < PL_PACKETSIZE then (-E_PL_INSUFFICIENTBUFFER, packet)
  else
    let packet := store_htonl packet PL_PIDX_TYPE data.type
    let packet := store_htonl packet PL_PIDX_MODE data.mode
    let packet := store_htonl packet PL_PIDX_FID data.function_id
    let packet := (List.range PL_OPERAND_COUNT).foldl
      (fun pk i => store_htonl pk (PL_PIDX_OP i) (data.data.getD i 0)) packet
    (E_PL_NOERROR, packet)

/-- Unserialize the buffer `packet` of size `len` into the structure `data`.
Returns the return value and the structure. -/
def pl_extr_packet (packet : List Nat) (data : pl_data) (len : Nat) : Int × pl_data :=
  if len < PL_PACKETSIZE then (-E_PL_INSUFFICIENTBUFFER, data)
  else
    let data := { data with type := load_ntohl packet PL_PIDX_TYPE }
    let data := { data with mode := load_ntohl packet PL_PIDX_MODE }
    let data := { data with function_id := load_ntohl packet PL_PIDX_FID }
    let data := (List.range PL_OPERAND_COUNT).foldl
      (fun d i => { d with data := d.data.set i (load_ntohl packet (PL_PIDX_OP i)) }) data
    (E_PL_NOERROR, data)

/-- Create a response packet: sets type and mode. -/
def pl_create_response (data : pl_data) : Int × pl_data :=
  (E_PL_NOERROR, { data with type := PL_PTYPE_RSP, mode := PL_MODE_SRV })

/-- Create a request packet: sets type and mode. -/
def pl_create_request (data : pl_data) : Int × pl_data :=
  (E_PL_NOERROR, { data with type := PL_PTYPE_REQ, mode := PL_MODE_CLN })

/-- Create an error packet: sets type and mode, and copies the error code into
operand 0. -/
def pl_create_error (data : pl_data) (errorcode : Int) : Int × pl_data :=
  (E_PL_NOERROR, { data with type := PL_PTYPE_ERR, mode := PL_MODE_SRV,
                             data := data.data.set 0 (to_unsigned errorcode) })

/-- The four bytes of the big-endian encoding of a 32-bit value, most
significant byte first. -/
def be32 (x : Nat) : List Nat :=
  [x / 16777216 % 256, x / 65536 % 256, x / 256 % 256, x % 256]

/-! ## The environment of a blocking receive -/

/-- What the environment does while the program is in `recvfrom` under a running
timeout: the timeout facility reports that the time is over, or a datagram
arrives, or the call fails at once without a timeout, as it does on a descriptor
that is not an open socket. -/
inductive RecvEvent where
  | timeout
  | datagram (bytes : List Nat)
  | failed
  deriving DecidableEq

/-- The call `recvfrom(sock, buf, cap, ...)` when the datagram `dgram` arrives:
at most `cap` bytes of the datagram are copied to the start of `buf`, and their
number is returned. -/
def recvfrom (buf : List Nat) (cap : Nat) (dgram : List Nat) : Int × List Nat :=
  let n := min cap dgram.length
  ((n : Int), dgram.take n ++ buf.drop n)

/-- The call `recvfrom(sock, buf, cap, ...)` when it fails: nothing is copied to
`buf` and -1 is returned. -/
def recvfrom_failed (buf : List Nat) : Int × List Nat := (-1, buf)

/-! ## server/vslabd.h, server/vslabd.c -/

def VSLD_PORT : Nat := 11111
def VSLD_TIMEOUT_SECS : Nat := 10

/-- The variables of `main` that live across iterations of the main loop, and
the record of the calls to the display and to the timeout facility. -/
structure ServerState where
  vsld_data : pl_data
  sndpacket : List Nat
  rcvpacket : List Nat
  sevenseg : List Char
  timeouts : List Nat
  deriving DecidableEq

/-- The state of `main` as C holds it: `vsld_data` is a `struct pl_data` and the
two packet buffers are `char[PL_PACKETSIZE]`. -/
def ServerState.wf (s : ServerState) : Prop :=
  s.vsld_data.wf ∧ s.sndpacket.length = PL_PACKETSIZE ∧ s.rcvpacket.length = PL_PACKETSIZE

instance (s : ServerState) : Decidable s.wf := by
  unfold ServerState.wf; infer_instance

/-- The part of one iteration of the main loop of `main` between the packet
extraction and the serialisation: validation of the packet and dispatch on the
function id. Returns the packet to send and the characters written to the
display. -/
def main_dispatch (iReturn : Int) (vsld_data : pl_data) : pl_data × List Char :=
  if iReturn < 0 then
    ((pl_create_error vsld_data PL_ERR_GENERALERROR).2, [])
  else if vsld_data.type ≠ PL_PTYPE_REQ then
    ((pl_create_error vsld_data PL_ERR_INVALIDTYPE).2, [])
  else if vsld_data.mode ≠ PL_MODE_CLN then
    ((pl_create_error vsld_data PL_ERR_INVALIDMODE).2, [])
  else if vsld_data.function_id = PL_FID_MUL then
    let iResult := to_int (umul (vsld_data.data.getD 0 0) (vsld_data.data.getD 1 0))
    let vsld_data := (pl_create_response vsld_data).2
    ({ vsld_data with data := vsld_data.data.set 0 (to_unsigned iResult) }, ['1'])
  else if vsld_data.function_id = PL_FID_DIV then
    if vsld_data.data.getD 1 0 = 0 then
      ((pl_create_error vsld_data PL_ERR_FUNCEXECERROR).2, ['E'])
    else
      let iResult := to_int (udiv (vsld_data.data.getD 0 0) (vsld_data.data.getD 1 0))
      let vsld_data := (pl_create_response vsld_data).2
      ({ vsld_data with data := vsld_data.data.set 0 (to_unsigned iResult) }, ['2'])
  else
    ((pl_create_error vsld_data PL_ERR_NOSUCHFUNCTION).2, ['F'])

/-- One iteration of the main loop of `main`. Returns the state and the
datagram handed to `sendto`, if any. -/
def main_loop_iteration (s : ServerState) (ev : RecvEvent) :
    ServerState × Option (List Nat) :=
  let s := { s with timeouts := s.timeouts ++ [VSLD_TIMEOUT_SECS] }
  match ev with
  | RecvEvent.timeout => (s, none)
  | RecvEvent.datagram bytes =>
    let r := recvfrom s.rcvpacket PL_PACKETSIZE bytes
    let iRcvLen := r.1
    let rcvpacket := r.2
    let e := pl_extr_packet rcvpacket s.vsld_data (to_unsigned iRcvLen)
    let iReturn := e.1
    let o := main_dispatch iReturn e.2
    let sndpacket := (pl_make_packet o.1 s.sndpacket PL_PACKETSIZE).2
    ({ s with vsld_data := o.1, sndpacket := sndpacket, rcvpacket := rcvpacket,
              sevenseg := s.sevenseg ++ o.2 },
     some (sndpacket.take PL_PACKETSIZE))
  | RecvEvent.failed =>
    let r := recvfrom_failed s.rcvpacket
    let iRcvLen := r.1
    let rcvpacket := r.2
    let e := pl_extr_packet rcvpacket s.vsld_data (to_unsigned iRcvLen)
    let iReturn := e.1
    let o := main_dispatch iReturn e.2
    let sndpacket := (pl_make_packet o.1 s.sndpacket PL_PACKETSIZE).2
    ({ s with vsld_data := o.1, sndpacket := sndpacket, rcvpacket := rcvpacket,
              sevenseg := s.sevenseg ++ o.2 },
     some (sndpacket.take PL_PACKETSIZE))

/-- The main loop of `main` over a finite run of the environment. Returns the
state and the datagrams sent, in order. -/
def main_loop (s : ServerState) (evs : List RecvEvent) : ServerState × List (List Nat) :=
  evs.foldl
    (fun acc ev =>
      let r := main_loop_iteration acc.1 ev
      (r.1, acc.2 ++ r.2.toList))
    (s, [])

/-! ## client/vslabclib/vslabclib.h, client/vslabclib/vslabclib.c -/

def VSLS_PORT : Nat := 11111

/-- The string constant `"141.47.69.14"`, as character codes. -/
def VSLS_UNICAST_ADDRESS : List Nat := [49, 52, 49, 46, 52, 55, 46, 54, 57, 46, 49, 52]

def IP_ADDR_LEN : Nat := 16

def VSLCL_STATUS_OFF : Int := 0
def VSLCL_STATUS_ON : Int := 1

def EVSLCL_NOERROR : Int := 0
def EVSLCL_BIND : Int := 101
def EVSLCL_SOCKET : Int := 102
def EVSLCL_STATUS_OFF : Int := 103
def EVSLCL_UNKNOWN_ERROR : Int := 104
def EVSLCL_NET_TIMEOUT : Int := 105
def EVSLCL_NULLPTR : Int := 106
def EVSLCL_WRONGADDRLEN : Int := 107
def EVSLCL_STATUS_ON : Int := 108

/-- The static variables of the client library (the socket address structures
apart), and the record of the datagrams handed to `sendto` and of the seconds
handed to `tol_start_timeout`. -/
structure ClientState where
  iVSLSocket : Int
  iVSLCLStatus : Int
  sndpacket : List Nat
  rcvpacket : List Nat
  unicast_addr : List Nat
  vsls_data : pl_data
  sent : List (List Nat)
  timeouts : List Nat
  deriving DecidableEq

/-- The static variables as C holds them. -/
def ClientState.wf (c : ClientState) : Prop :=
  c.vsls_data.wf ∧ c.sndpacket.length = PL_PACKETSIZE ∧ c.rcvpacket.length = PL_PACKETSIZE ∧
  c.unicast_addr.length = IP_ADDR_LEN

instance (c : ClientState) : Decidable c.wf := by
  unfold ClientState.wf; infer_instance

/-- The static variables at program start: the initialisers of the
declarations, zero where there is none. -/
def client_init : ClientState :=
  { iVSLSocket := 0
    iVSLCLStatus := VSLCL_STATUS_OFF
    sndpacket := List.replicate PL_PACKETSIZE 0
    rcvpacket := List.replicate PL_PACKETSIZE 0
    unicast_addr := VSLS_UNICAST_ADDRESS ++
      List.replicate (IP_ADDR_LEN - VSLS_UNICAST_ADDRESS.length) 0
    vsls_data := { type := 0, mode := 0, function_id := 0,
                   data := List.replicate PL_OPERAND_COUNT 0 }
    sent := []
    timeouts := [] }

/-- Initialize the client library. The return values of `socket` and of `bind`
are given by the environment. -/
def vslcl_Open (c : ClientState) (socket_ret bind_ret : Int) : Int × ClientState :=
  let c := { c with iVSLSocket := socket_ret }
  if c.iVSLSocket < 0 then
    (-EVSLCL_SOCKET, { c with iVSLCLStatus := VSLCL_STATUS_OFF })
  else if bind_ret < 0 then
    (-EVSLCL_BIND, { c with iVSLCLStatus := VSLCL_STATUS_OFF })
  else
    (EVSLCL_NOERROR, { c with iVSLCLStatus := VSLCL_STATUS_ON })

/-- Close the client library. -/
def vslcl_Close (c : ClientState) : Int × ClientState :=
  if c.iVSLCLStatus ≠ VSLCL_STATUS_ON then (-EVSLCL_STATUS_OFF, c)
  else (EVSLCL_NOERROR, { c with iVSLCLStatus := VSLCL_STATUS_OFF })

/-- Execute a function on the remote node. The environment `net` tells what
happens in the receive after the datagram given to it has been handed to
`sendto`. Returns the return value, the array `param` and the state. -/
def vslcl_call_function (c : ClientState) (net : List Nat → RecvEvent) (fid : Int)
    (param : List Int) : Int × List Int × ClientState :=
  let vsls_data := (pl_create_request c.vsls_data).2
  let vsls_data := { vsls_data with function_id := to_unsigned fid }
  let vsls_data := (List.range PL_OPERAND_COUNT).foldl
    (fun d i => { d with data := d.data.set i (to_unsigned (param.getD i 0)) }) vsls_data
  let sndpacket := (pl_make_packet vsls_data c.sndpacket PL_PACKETSIZE).2
  let dgram := sndpacket.take PL_PACKETSIZE
  let c := { c with vsls_data := vsls_data, sndpacket := sndpacket,
                    sent := c.sent ++ [dgram], timeouts := c.timeouts ++ [5] }
  match net dgram with
  | RecvEvent.timeout => (-EVSLCL_NET_TIMEOUT, param, c)
  | RecvEvent.datagram bytes =>
    let r := recvfrom c.rcvpacket PL_PACKETSIZE bytes
    let iRcvLen := to_unsigned r.1
    let rcvpacket := r.2
    let vsls_data := (pl_extr_packet rcvpacket c.vsls_data iRcvLen).2
    let param := (List.range PL_OPERAND_COUNT).foldl
      (fun p i => p.set i (to_int (vsls_data.data.getD i 0))) param
    let c := { c with rcvpacket := rcvpacket, vsls_data := vsls_data }
    if vsls_data.type = PL_PTYPE_ERR then (to_int (uneg (vsls_data.data.getD 0 0)), param, c)
    else if vsls_data.type = PL_PTYPE_RSP then (EVSLCL_NOERROR, param, c)
    else (-EVSLCL_UNKNOWN_ERROR, param, c)
  | RecvEvent.failed =>
    let r := recvfrom_failed c.rcvpacket
    let iRcvLen := to_unsigned r.1
    let rcvpacket := r.2
    let vsls_data := (pl_extr_packet rcvpacket c.vsls_data iRcvLen).2
    let param := (List.range PL_OPERAND_COUNT).foldl
      (fun p i => p.set i (to_int (vsls_data.data.getD i 0))) param
    let c := { c with rcvpacket := rcvpacket, vsls_data := vsls_data }
    if vsls_data.type = PL_PTYPE_ERR then (to_int (uneg (vsls_data.data.getD 0 0)), param, c)
    else if vsls_data.type = PL_PTYPE_RSP then (EVSLCL_NOERROR, param, c)
    else (-EVSLCL_UNKNOWN_ERROR, param, c)

/-- Call the multiply function. `result` is the variable the pointer `result`
points to; returns the return value, that variable and the state. -/
def vslcl_Multiply (c : ClientState) (net : List Nat → RecvEvent) (op1 op2 : Int)
    (result : Int) : Int × Int × ClientState :=
  if c.iVSLCLStatus ≠ VSLCL_STATUS_ON then (-EVSLCL_STATUS_OFF, result, c)
  else
    let params := [op1, op2]
    let params := (List.range' 2 (PL_OPERAND_COUNT - 2)).foldl (fun p i => p.set i 0) params
    let r := vslcl_call_function c net (PL_FID_MUL : Nat) params
    let iReturn := r.1
    if iReturn < 0 then (iReturn, result, r.2.2)
    else (iReturn, r.2.1.getD 0 0, r.2.2)

/-- Call the divide function. `result` is the variable the pointer `result`
points to; returns the return value, that variable and the state. -/
def vslcl_Divide (c : ClientState) (net : List Nat → RecvEvent) (op1 op2 : Int)
    (result : Int) : Int × Int × ClientState :=
  if c.iVSLCLStatus ≠ VSLCL_STATUS_ON then (-EVSLCL_STATUS_OFF, result, c)
  else
    let params := [op1, op2]
    let params := (List.range' 2 (PL_OPERAND_COUNT - 2)).foldl (fun p i => p.set i 0) params
    let r := vslcl_call_function c net (PL_FID_DIV : Nat) params
    let iReturn := r.1
    if iReturn < 0 then (iReturn, result, r.2.2)
    else (iReturn, r.2.1.getD 0 0, r.2.2)

/-- Set the remote unicast address. The string `address` is given by its
characters, the terminating zero not included. `strncpy` copies at most
`IP_ADDR_LEN` characters and fills up with zero bytes. -/
def vslcl_SetUnicastAddress (c : ClientState) (address : List Nat) : Int × ClientState :=
  if address.length > IP_ADDR_LEN then (-EVSLCL_WRONGADDRLEN, c)
  else
    (EVSLCL_NOERROR,
     { c with unicast_addr :=
        (address ++ List.replicate (IP_ADDR_LEN - address.length) 0).take IP_ADDR_LEN ++
          c.unicast_addr.drop IP_ADDR_LEN })

/-! ## The two programs connected -/

/-- A channel without loss to a daemon in state `srv`: the request is delivered
to one iteration of the main loop of the daemon, and the datagram the daemon
sends is delivered back to the client. -/
def lossless (srv : ServerState) (req : List Nat) : RecvEvent :=
  match (main_loop_iteration srv (RecvEvent.datagram req)).2 with
  | some reply => RecvEvent.datagram reply
  | none => RecvEvent.timeout

/-- The range of an `int`. -/
def is_int (i : Int) : Prop := -2147483648 ≤ i ∧ i < 2147483648

instance (i : Int) : Decidable (is_int i) := by
  unfold is_int; infer_instance

/-- What a datagram decodes to: the result of `pl_extr_packet` on the bytes of
the datagram and their number, into a zeroed structure. -/
def decode (bytes : List Nat) : Int × pl_data :=
  pl_extr_packet bytes ⟨0, 0, 0, List.replicate PL_OPERAND_COUNT 0⟩ bytes.length

/-- A state of the daemon with all variables zero and nothing recorded. The
variables of `main` are not initialised, so this is one of the states the loop
may start in. -/
def server_zero : ServerState :=
  { vsld_data := ⟨0, 0, 0, List.replicate PL_OPERAND_COUNT 0⟩
    sndpacket := List.replicate PL_PACKETSIZE 0
    rcvpacket := List.replicate PL_PACKETSIZE 0
    sevenseg := []
    timeouts := [] }

/-- The client library after a successful `vslcl_Open` at program start (the
socket descriptor is 3 here). -/
def client_open : ClientState := (vslcl_Open client_init 3 0).2

/-- The string a `char` buffer holds: the bytes before the first zero byte. -/
def c_string (buf : List Nat) : List Nat := buf.takeWhile (fun b => b != 0)

/-! ## Lemmas on machine integers and buffers -/

theorem range_operand_count : List.range PL_OPERAND_COUNT = [0, 1] := by decide

theorem exists_cons4 (l : List Nat) (h : 4 ≤ l.length) :
    ∃ a b c d r, l = a :: b :: c :: d :: r := by
  rcases l with _ | ⟨a, _ | ⟨b, _ | ⟨c, _ | ⟨d, r⟩⟩⟩⟩
  · simp at h
  · simp at h
  · simp at h
  · simp at h
  · exact ⟨a, b, c, d, r, rfl⟩

theorem pl_make_packet_eq (p : pl_data) (buf : List Nat) (len : Nat)
    (hlen : PL_PACKETSIZE ≤ len) (hbuf : PL_PACKETSIZE ≤ buf.length) :
    pl_make_packet p buf len =
      (E_PL_NOERROR, be32 p.type ++ be32 p.mode ++ be32 p.function_id ++
        be32 (p.data.getD 0 0) ++ be32 (p.data.getD 1 0) ++ buf.drop PL_PACKETSIZE) := by
  have h20 : 20 ≤ buf.length := hbuf
  obtain ⟨t0, t1, t2, t3, l1, rfl⟩ := exists_cons4 buf (by omega)
  obtain ⟨m0, m1, m2, m3, l2, rfl⟩ := exists_cons4 l1 (by simp at h20; omega)
  obtain ⟨f0, f1, f2, f3, l3, rfl⟩ := exists_cons4 l2 (by simp at h20; omega)
  obtain ⟨a0, a1, a2, a3, l4, rfl⟩ := exists_cons4 l3 (by simp at h20; omega)
  obtain ⟨b0, b1, b2, b3, l5, rfl⟩ := exists_cons4 l4 (by simp at h20; omega)
  have hl : ¬ len < PL_PACKETSIZE := by omega
  rw [pl_make_packet, if_neg hl, range_operand_count]
  simp [store_htonl, be32, PL_PIDX_TYPE, PL_PIDX_MODE, PL_PIDX_FID, PL_PIDX_OP, PL_PACKETSIZE,
    PL_OPERAND_COUNT]

theorem pl_extr_packet_eq (packet : List Nat) (d : pl_data) (len : Nat)
    (hlen : PL_PACKETSIZE ≤ len) (hd : d.data.length = PL_OPERAND_COUNT) :
    pl_extr_packet packet d len =
      (E_PL_NOERROR,
        { type := load_ntohl packet 0, mode := load_ntohl packet 4,
          function_id := load_ntohl packet 8,
          data := [load_ntohl packet 12, load_ntohl packet 16] }) := by
  have hl : ¬ len < PL_PACKETSIZE := by omega
  obtain ⟨t, m, f, dd⟩ := d
  rcases dd with _ | ⟨x, _ | ⟨y, _ | ⟨z, r⟩⟩⟩ <;> simp [PL_OPERAND_COUNT] at hd
  rw [pl_extr_packet, if_neg hl, range_operand_count]
  simp [PL_PIDX_TYPE, PL_PIDX_MODE, PL_PIDX_FID, PL_PIDX_OP]

/-- The bytes of `be32 x` are the base-256 digits of `x`, most significant
first. -/
theorem be32_value (x : Nat) (hx : x < 4294967296) :
    (∀ b ∈ be32 x, b < 256) ∧
      (be32 x).getD 0 0 * 16777216 + (be32 x).getD 1 0 * 65536 + (be32 x).getD 2 0 * 256 +
        (be32 x).getD 3 0 = x := by
  constructor
  · intro b hb
    simp [be32] at hb
    omega
  · simp [be32]
    omega

theorem load_ntohl_encoding (t m f a b : Nat) (r : List Nat) :
    load_ntohl (be32 t ++ be32 m ++ be32 f ++ be32 a ++ be32 b ++ r) 0 = t % 4294967296 ∧
    load_ntohl (be32 t ++ be32 m ++ be32 f ++ be32 a ++ be32 b ++ r) 4 = m % 4294967296 ∧
    load_ntohl (be32 t ++ be32 m ++ be32 f ++ be32 a ++ be32 b ++ r) 8 = f % 4294967296 ∧
    load_ntohl (be32 t ++ be32 m ++ be32 f ++ be32 a ++ be32 b ++ r) 12 = a % 4294967296 ∧
    load_ntohl (be32 t ++ be32 m ++ be32 f ++ be32 a ++ be32 b ++ r) 16 = b % 4294967296 := by
  simp [load_ntohl, be32]
  omega

/-- Decoding what `pl_make_packet` wrote gives the fields back, reduced to 32
bits. -/
theorem pl_extr_make (p d : pl_data) (buf : List Nat) (len len2 : Nat)
    (hlen : PL_PACKETSIZE ≤ len) (hlen2 : PL_PACKETSIZE ≤ len2)
    (hbuf : PL_PACKETSIZE ≤ buf.length) (hd : d.data.length = PL_OPERAND_COUNT) :
    pl_extr_packet (pl_make_packet p buf len).2 d len2 =
      (E_PL_NOERROR,
        { type := p.type % 4294967296, mode := p.mode % 4294967296,
          function_id := p.function_id % 4294967296,
          data := [p.data.getD 0 0 % 4294967296, p.data.getD 1 0 % 4294967296] }) := by
  rw [pl_make_packet_eq p buf len hlen hbuf, pl_extr_packet_eq _ d len2 hlen2 hd]
  obtain ⟨h0, h4, h8, h12, h16⟩ := load_ntohl_encoding p.type p.mode p.function_id
    (p.data.getD 0 0) (p.data.getD 1 0) (buf.drop PL_PACKETSIZE)
  simp only [h0, h4, h8, h12, h16]

theorem pl_data_wf_eq (p : pl_data) (hp : p.wf) :
    ({ type := p.type % 4294967296, mode := p.mode % 4294967296,
       function_id := p.function_id % 4294967296,
       data := [p.data.getD 0 0 % 4294967296, p.data.getD 1 0 % 4294967296] } : pl_data) = p := by
  obtain ⟨t, m, f, dd⟩ := p
  obtain ⟨ht, hm, hf, hl, hx⟩ := hp
  rcases dd with _ | ⟨x, _ | ⟨y, _ | ⟨z, r⟩⟩⟩ <;> simp [PL_OPERAND_COUNT] at hl
  simp at ht hm hf hx
  simp [Nat.mod_eq_of_lt, ht, hm, hf, hx.1, hx.2]

/-! ## The packet codec -/

/-- C1. Round trip of the packet codec: for every packet `p` whose fields are
32-bit unsigned values and every buffer with room for `len >= 20` bytes,
`pl_make_packet` succeeds, and `pl_extr_packet` on the buffer it wrote, with the
same `len`, succeeds and yields `p`. -/
theorem pl_roundtrip (p d : pl_data) (buf : List Nat) (len : Nat) (hp : p.wf)
    (hd : d.data.length = PL_OPERAND_COUNT) (hlen : PL_PACKETSIZE ≤ len)
    (hbuf : len ≤ buf.length) :
    PL_PACKETSIZE = 20 ∧ (pl_make_packet p buf len).1 = E_PL_NOERROR ∧
      pl_extr_packet (pl_make_packet p buf len).2 d len = (E_PL_NOERROR, p) := by
  have hb : PL_PACKETSIZE ≤ buf.length := le_trans hlen hbuf
  refine ⟨rfl, ?_, ?_⟩
  · rw [pl_make_packet_eq p buf len hlen hb]
  · rw [pl_extr_make p d buf len len hlen hlen hb hd, pl_data_wf_eq p hp]

theorem pl_roundtrip_witness :
    PL_PACKETSIZE = 20 ∧
      (pl_make_packet ⟨1, 1, 2, [4294967295, 305419896]⟩ (List.replicate 24 170) 20).1 =
        E_PL_NOERROR ∧
      pl_extr_packet
          (pl_make_packet ⟨1, 1, 2, [4294967295, 305419896]⟩ (List.replicate 24 170) 20).2
          ⟨0, 0, 0, [0, 0]⟩ 20 =
        (E_PL_NOERROR, ⟨1, 1, 2, [4294967295, 305419896]⟩) :=
  pl_roundtrip ⟨1, 1, 2, [4294967295, 305419896]⟩ ⟨0, 0, 0, [0, 0]⟩ (List.replicate 24 170) 20
    (by decide) (by decide) (by decide) (by decide)

/-- C2. Wire layout of `pl_make_packet`: for every packet and every buffer with
room for `len >= 20` bytes, the call succeeds and the bytes at offsets 0-3, 4-7,
8-11, 12-15 and 16-19 of the buffer are the big-endian encodings of `type`,
`mode`, `function_id`, `data[0]` and `data[1]`; the size of the buffer stays,
`(3 + PL_OPERAND_COUNT) * 4 = 20` bytes are written and the bytes from offset 20
on are unchanged. -/
theorem pl_make_packet_layout (p : pl_data) (buf : List Nat) (len : Nat) (hp : p.wf)
    (hlen : PL_PACKETSIZE ≤ len) (hbuf : len ≤ buf.length) :
    (pl_make_packet p buf len).1 = E_PL_NOERROR ∧
      ((pl_make_packet p buf len).2.drop 0).take 4 = be32 p.type ∧
      ((pl_make_packet p buf len).2.drop 4).take 4 = be32 p.mode ∧
      ((pl_make_packet p buf len).2.drop 8).take 4 = be32 p.function_id ∧
      ((pl_make_packet p buf len).2.drop 12).take 4 = be32 (p.data.getD 0 0) ∧
      ((pl_make_packet p buf len).2.drop 16).take 4 = be32 (p.data.getD 1 0) ∧
      (pl_make_packet p buf len).2.length = buf.length ∧
      (pl_make_packet p buf len).2.drop ((3 + PL_OPERAND_COUNT) * 4) =
        buf.drop ((3 + PL_OPERAND_COUNT) * 4) ∧
      (3 + PL_OPERAND_COUNT) * 4 = 20 ∧ PL_PACKETSIZE = 20 ∧
      p.data = [p.data.getD 0 0, p.data.getD 1 0] := by
  have hb : PL_PACKETSIZE ≤ buf.length := le_trans hlen hbuf
  have h20 : 20 ≤ buf.length := hb
  rw [pl_make_packet_eq p buf len hlen hb]
  refine ⟨rfl, ?_, ?_, ?_, ?_, ?_, ?_, ?_, rfl, rfl, ?_⟩
  · simp [be32]
  · simp [be32]
  · simp [be32]
  · simp [be32]
  · simp [be32]
  · simp [be32, PL_PACKETSIZE, PL_OPERAND_COUNT]
    omega
  · simp [be32, PL_PACKETSIZE, PL_OPERAND_COUNT]
  · obtain ⟨t, m, f, dd⟩ := p
    obtain ⟨_, _, _, hl, _⟩ := hp
    rcases dd with _ | ⟨x, _ | ⟨y, _ | ⟨z, r⟩⟩⟩ <;> simp [PL_OPERAND_COUNT] at hl
    simp

theorem pl_make_packet_layout_witness :
    (pl_make_packet ⟨3, 2, 258, [4, 4278190335]⟩ (List.replicate 22 7) 21).1 = E_PL_NOERROR ∧
      ((pl_make_packet ⟨3, 2, 258, [4, 4278190335]⟩ (List.replicate 22 7) 21).2.drop 0).take 4 =
        be32 3 ∧
      ((pl_make_packet ⟨3, 2, 258, [4, 4278190335]⟩ (List.replicate 22 7) 21).2.drop 4).take 4 =
        be32 2 ∧
      ((pl_make_packet ⟨3, 2, 258, [4, 4278190335]⟩ (List.replicate 22 7) 21).2.drop 8).take 4 =
        be32 258 ∧
      ((pl_make_packet ⟨3, 2, 258, [4, 4278190335]⟩ (List.replicate 22 7) 21).2.drop 12).take 4 =
        be32 ((([4, 4278190335] : List Nat)).getD 0 0) ∧
      ((pl_make_packet ⟨3, 2, 258, [4, 4278190335]⟩ (List.replicate 22 7) 21).2.drop 16).take 4 =
        be32 ((([4, 4278190335] : List Nat)).getD 1 0) ∧
      (pl_make_packet ⟨3, 2, 258, [4, 4278190335]⟩ (List.replicate 22 7) 21).2.length =
        (List.replicate 22 7).length ∧
      (pl_make_packet ⟨3, 2, 258, [4, 4278190335]⟩ (List.replicate 22 7) 21).2.drop
          ((3 + PL_OPERAND_COUNT) * 4) =
        (List.replicate 22 7).drop ((3 + PL_OPERAND_COUNT) * 4) ∧
      (3 + PL_OPERAND_COUNT) * 4 = 20 ∧ PL_PACKETSIZE = 20 ∧
      ([4, 4278190335] : List Nat) =
        [(([4, 4278190335] : List Nat)).getD 0 0, (([4, 4278190335] : List Nat)).getD 1 0] :=
  pl_make_packet_layout ⟨3, 2, 258, [4, 4278190335]⟩ (List.replicate 22 7) 21
    (by decide) (by decide) (by decide)

/-- C3. Undersized buffers are rejected without any access: for every
`len < 20`, `pl_make_packet` returns the insufficient-buffer error and leaves
the destination buffer as it was, and `pl_extr_packet` returns the
insufficient-buffer error and leaves the destination packet as it was, whatever
the source buffer holds. -/
theorem pl_undersized (p d : pl_data) (buf packet : List Nat) (len : Nat)
    (hlen : len < 20) :
    PL_PACKETSIZE = 20 ∧ -E_PL_INSUFFICIENTBUFFER = -2 ∧
      pl_make_packet p buf len = (-E_PL_INSUFFICIENTBUFFER, buf) ∧
      pl_extr_packet packet d len = (-E_PL_INSUFFICIENTBUFFER, d) ∧
      ∀ other : List Nat, pl_extr_packet other d len = pl_extr_packet packet d len := by
  have hl : len < PL_PACKETSIZE := hlen
  refine ⟨rfl, rfl, ?_, ?_, ?_⟩
  · rw [pl_make_packet, if_pos hl]
  · rw [pl_extr_packet, if_pos hl]
  · intro other
    rw [pl_extr_packet, if_pos hl, pl_extr_packet, if_pos hl]

theorem pl_undersized_witness :
    PL_PACKETSIZE = 20 ∧ -E_PL_INSUFFICIENTBUFFER = -2 ∧
      pl_make_packet ⟨1, 1, 1, [6, 7]⟩ (List.replicate 19 9) 19 =
        (-E_PL_INSUFFICIENTBUFFER, List.replicate 19 9) ∧
      pl_extr_packet (List.replicate 19 9) ⟨5, 6, 7, [8, 9]⟩ 19 =
        (-E_PL_INSUFFICIENTBUFFER, ⟨5, 6, 7, [8, 9]⟩) ∧
      ∀ other : List Nat, pl_extr_packet other ⟨5, 6, 7, [8, 9]⟩ 19 =
        pl_extr_packet (List.replicate 19 9) ⟨5, 6, 7, [8, 9]⟩ 19 :=
  pl_undersized ⟨1, 1, 1, [6, 7]⟩ ⟨5, 6, 7, [8, 9]⟩ (List.replicate 19 9) (List.replicate 19 9) 19
    (by decide)

/-! ## Lemmas on the daemon -/

theorem to_unsigned_lt (i : Int) : to_unsigned i < 4294967296 := by
  unfold to_unsigned
  omega

theorem to_unsigned_natCast (n : Nat) : to_unsigned (n : Int) = n % 4294967296 := by
  unfold to_unsigned
  omega

theorem to_unsigned_to_int (n : Nat) : to_unsigned (to_int n) = n % 4294967296 := by
  unfold to_unsigned to_int
  split <;> omega

theorem load_ntohl_lt (l : List Nat) (k : Nat) : load_ntohl l k < 4294967296 := by
  unfold load_ntohl
  omega

theorem getD_take_append (l r : List Nat) (n i : Nat) (hi : i < n) (hn : n ≤ l.length) :
    (l.take n ++ r).getD i 0 = l.getD i 0 := by
  have h1 : i < (l.take n).length := by simp; omega
  have h2 : i < l.length := by omega
  simp [List.getD_eq_getElem?_getD, List.getElem?_append_left h1, List.getElem?_take, hi]

theorem load_ntohl_take_append (l r : List Nat) (n k : Nat) (hk : k + 4 ≤ n)
    (hn : n ≤ l.length) : load_ntohl (l.take n ++ r) k = load_ntohl l k := by
  unfold load_ntohl
  rw [getD_take_append l r n k (by omega) hn, getD_take_append l r n (k + 1) (by omega) hn,
    getD_take_append l r n (k + 2) (by omega) hn, getD_take_append l r n (k + 3) (by omega) hn]

theorem pl_make_packet_length (p : pl_data) (buf : List Nat) (len : Nat) :
    (pl_make_packet p buf len).2.length = buf.length := by
  unfold pl_make_packet
  split
  · rfl
  · simp [range_operand_count, store_htonl]

theorem decode_eq (bytes : List Nat) (h : PL_PACKETSIZE ≤ bytes.length) :
    decode bytes =
      (E_PL_NOERROR,
        { type := load_ntohl bytes 0, mode := load_ntohl bytes 4,
          function_id := load_ntohl bytes 8,
          data := [load_ntohl bytes 12, load_ntohl bytes 16] }) := by
  unfold decode
  rw [pl_extr_packet_eq _ _ _ h (by decide)]

theorem decode_full (bytes : List Nat) (p : pl_data) (h : decode bytes = (E_PL_NOERROR, p)) :
    PL_PACKETSIZE ≤ bytes.length := by
  by_contra hc
  have hl : bytes.length < PL_PACKETSIZE := by omega
  unfold decode at h
  rw [pl_extr_packet, if_pos hl] at h
  have h1 := congrArg Prod.fst h
  simp [E_PL_INSUFFICIENTBUFFER, E_PL_NOERROR] at h1

theorem decode_wf (bytes : List Nat) (h : PL_PACKETSIZE ≤ bytes.length) :
    (decode bytes).2.wf := by
  rw [decode_eq bytes h]
  refine ⟨load_ntohl_lt _ _, load_ntohl_lt _ _, load_ntohl_lt _ _, rfl, ?_⟩
  intro x hx
  simp at hx
  rcases hx with rfl | rfl <;> exact load_ntohl_lt _ _

theorem decode_make (o : pl_data) (snd : List Nat) (ho : o.wf)
    (hsnd : snd.length = PL_PACKETSIZE) :
    decode (pl_make_packet o snd PL_PACKETSIZE).2 = (E_PL_NOERROR, o) := by
  unfold decode
  rw [pl_extr_make o _ snd PL_PACKETSIZE _ (le_refl _)
    (by rw [pl_make_packet_length, hsnd]) (by rw [hsnd]) (by decide), pl_data_wf_eq o ho]

theorem pl_create_error_wf (d : pl_data) (e : Int) (hd : d.wf) : (pl_create_error d e).2.wf := by
  obtain ⟨t, m, f, dd⟩ := d
  obtain ⟨ht, hm, hf, hl, hx⟩ := hd
  rcases dd with _ | ⟨x, _ | ⟨y, _ | ⟨z, r⟩⟩⟩ <;> simp [PL_OPERAND_COUNT] at hl
  simp at hx
  have := to_unsigned_lt e
  simp [pl_create_error, pl_data.wf, PL_PTYPE_ERR, PL_MODE_SRV, PL_OPERAND_COUNT, hf, hx.2, this]

theorem main_dispatch_wf (r : Int) (d : pl_data) (hd : d.wf) : (main_dispatch r d).1.wf := by
  have hd0 := hd
  obtain ⟨t, m, f, dd⟩ := d
  obtain ⟨ht, hm, hf, hl, hx⟩ := hd
  rcases dd with _ | ⟨x, _ | ⟨y, _ | ⟨z, r⟩⟩⟩ <;> simp [PL_OPERAND_COUNT] at hl
  simp at hx hf
  unfold main_dispatch
  split
  · exact pl_create_error_wf _ _ hd0
  split
  · exact pl_create_error_wf _ _ hd0
  split
  · exact pl_create_error_wf _ _ hd0
  split
  · simp [pl_create_response, pl_data.wf, PL_PTYPE_RSP, PL_MODE_SRV, PL_OPERAND_COUNT, hf, hx.2,
      to_unsigned_lt]
  split
  · split
    · exact pl_create_error_wf _ _ hd0
    · simp [pl_create_response, pl_data.wf, PL_PTYPE_RSP, PL_MODE_SRV, PL_OPERAND_COUNT, hf,
        hx.2, to_unsigned_lt]
  · exact pl_create_error_wf _ _ hd0

/-- One iteration of the main loop on a datagram of full size: the packet sent
is the one the dispatch makes of the decoded datagram. -/
theorem main_loop_iteration_full (s : ServerState) (dgram : List Nat) (hs : s.wf)
    (hfull : PL_PACKETSIZE ≤ dgram.length) :
    main_loop_iteration s (RecvEvent.datagram dgram) =
      ({ vsld_data := (main_dispatch E_PL_NOERROR (decode dgram).2).1
         sndpacket := (pl_make_packet (main_dispatch E_PL_NOERROR (decode dgram).2).1
           s.sndpacket PL_PACKETSIZE).2
         rcvpacket := dgram.take PL_PACKETSIZE
         sevenseg := s.sevenseg ++ (main_dispatch E_PL_NOERROR (decode dgram).2).2
         timeouts := s.timeouts ++ [VSLD_TIMEOUT_SECS] },
       some (pl_make_packet (main_dispatch E_PL_NOERROR (decode dgram).2).1
           s.sndpacket PL_PACKETSIZE).2) := by
  obtain ⟨hd, hsnd, hrcv⟩ := hs
  have hmin : min PL_PACKETSIZE dgram.length = PL_PACKETSIZE := Nat.min_eq_left hfull
  have hdrop : s.rcvpacket.drop PL_PACKETSIZE = [] := by
    apply List.drop_eq_nil_of_le
    omega
  have hu : to_unsigned ((PL_PACKETSIZE : Nat) : Int) = PL_PACKETSIZE := by decide
  have hext : pl_extr_packet (dgram.take PL_PACKETSIZE) s.vsld_data PL_PACKETSIZE =
      (E_PL_NOERROR, (decode dgram).2) := by
    rw [pl_extr_packet_eq _ _ _ (le_refl _) hd.2.2.2.1, decode_eq dgram hfull]
    have h : ∀ k, k + 4 ≤ PL_PACKETSIZE →
        load_ntohl (dgram.take PL_PACKETSIZE) k = load_ntohl dgram k := by
      intro k hk
      have := load_ntohl_take_append dgram [] PL_PACKETSIZE k hk hfull
      simpa using this
    rw [h 0 (by decide), h 4 (by decide), h 8 (by decide), h 12 (by decide), h 16 (by decide)]
  have htake : ∀ o : pl_data, (pl_make_packet o s.sndpacket PL_PACKETSIZE).2.take PL_PACKETSIZE =
      (pl_make_packet o s.sndpacket PL_PACKETSIZE).2 := by
    intro o
    apply List.take_of_length_le
    rw [pl_make_packet_length, hsnd]
  simp only [main_loop_iteration, recvfrom, hmin, hdrop, List.append_nil, hu, hext, htake]

/-- The reply of the daemon to a datagram that decodes to the packet `p`. -/
theorem main_loop_iteration_reply (s : ServerState) (dgram : List Nat) (p : pl_data)
    (hs : s.wf) (hreq : decode dgram = (E_PL_NOERROR, p)) :
    p.wf ∧
    (main_loop_iteration s (RecvEvent.datagram dgram)).2 =
      some (pl_make_packet (main_dispatch E_PL_NOERROR p).1 s.sndpacket PL_PACKETSIZE).2 ∧
    (pl_make_packet (main_dispatch E_PL_NOERROR p).1 s.sndpacket PL_PACKETSIZE).2.length =
      PL_PACKETSIZE ∧
    decode (pl_make_packet (main_dispatch E_PL_NOERROR p).1 s.sndpacket PL_PACKETSIZE).2 =
      (E_PL_NOERROR, (main_dispatch E_PL_NOERROR p).1) ∧
    (main_loop_iteration s (RecvEvent.datagram dgram)).1.sevenseg =
      s.sevenseg ++ (main_dispatch E_PL_NOERROR p).2 := by
  have hfull := decode_full dgram p hreq
  have hp : p.wf := by
    have := decode_wf dgram hfull
    rw [hreq] at this
    exact this
  have hit := main_loop_iteration_full s dgram hs hfull
  rw [hreq] at hit
  refine ⟨hp, ?_, ?_, ?_, ?_⟩
  · rw [hit]
  · rw [pl_make_packet_length, hs.2.1]
  · exact decode_make _ _ (main_dispatch_wf _ _ hp) hs.2.1
  · rw [hit]

/-- C4. Server Divide: for every datagram that decodes to a Request in Client
mode with function id 2 and operands `[a, b]` (such a datagram has full size),
the daemon sends a reply of 20 bytes that decodes, if `b = 0`, to an Error
packet in Server mode with operand 0 equal to 4, and if `b ≠ 0`, to a Response
packet in Server mode with operand 0 equal to the quotient `a / b` rounded
down; function id and operand 1 are those of the request. -/
theorem server_divide (s : ServerState) (dgram : List Nat) (a b : Nat) (hs : s.wf)
    (hreq : decode dgram = (E_PL_NOERROR, ⟨PL_PTYPE_REQ, PL_MODE_CLN, PL_FID_DIV, [a, b]⟩)) :
    ∃ reply, (main_loop_iteration s (RecvEvent.datagram dgram)).2 = some reply ∧
      reply.length = 20 ∧
      (b = 0 → decode reply = (E_PL_NOERROR, ⟨PL_PTYPE_ERR, PL_MODE_SRV, PL_FID_DIV, [4, b]⟩)) ∧
      (b ≠ 0 →
        decode reply = (E_PL_NOERROR, ⟨PL_PTYPE_RSP, PL_MODE_SRV, PL_FID_DIV, [a / b, b]⟩)) := by
  obtain ⟨hp, hsend, hlen, hdec, _⟩ := main_loop_iteration_reply s dgram _ hs hreq
  refine ⟨_, hsend, hlen, ?_, ?_⟩
  · intro hb
    rw [hdec]
    subst hb
    rfl
  · intro hb
    rw [hdec]
    have ha : a < 4294967296 := hp.2.2.2.2 a (by simp)
    have hq : a / b % 4294967296 = a / b :=
      Nat.mod_eq_of_lt (lt_of_le_of_lt (Nat.div_le_self a b) ha)
    simp [main_dispatch, E_PL_NOERROR, PL_PTYPE_REQ, PL_MODE_CLN, PL_FID_DIV, PL_FID_MUL, hb,
      pl_create_response, PL_PTYPE_RSP, PL_MODE_SRV, to_unsigned_to_int, udiv, hq]

theorem server_divide_witness :
    (∃ reply, (main_loop_iteration server_zero (RecvEvent.datagram
          [0, 0, 0, 1, 0, 0, 0, 1, 0, 0, 0, 2, 0, 0, 0, 20, 0, 0, 0, 4])).2 = some reply ∧
      reply.length = 20 ∧
      (4 = 0 → decode reply = (E_PL_NOERROR, ⟨PL_PTYPE_ERR, PL_MODE_SRV, PL_FID_DIV, [4, 4]⟩)) ∧
      (4 ≠ 0 →
        decode reply =
          (E_PL_NOERROR, ⟨PL_PTYPE_RSP, PL_MODE_SRV, PL_FID_DIV, [20 / 4, 4]⟩))) ∧
    (∃ reply, (main_loop_iteration server_zero (RecvEvent.datagram
          [0, 0, 0, 1, 0, 0, 0, 1, 0, 0, 0, 2, 0, 0, 0, 5, 0, 0, 0, 0])).2 = some reply ∧
      reply.length = 20 ∧
      (0 = 0 → decode reply = (E_PL_NOERROR, ⟨PL_PTYPE_ERR, PL_MODE_SRV, PL_FID_DIV, [4, 0]⟩)) ∧
      (0 ≠ 0 →
        decode reply =
          (E_PL_NOERROR, ⟨PL_PTYPE_RSP, PL_MODE_SRV, PL_FID_DIV, [5 / 0, 0]⟩))) :=
  ⟨server_divide server_zero [0, 0, 0, 1, 0, 0, 0, 1, 0, 0, 0, 2, 0, 0, 0, 20, 0, 0, 0, 4] 20 4
      (by decide) (by decide),
   server_divide server_zero [0, 0, 0, 1, 0, 0, 0, 1, 0, 0, 0, 2, 0, 0, 0, 5, 0, 0, 0, 0] 5 0
      (by decide) (by decide)⟩

/-- C5. Server Multiply: for every datagram that decodes to a Request in Client
mode with function id 1 and operands `[a, b]` (such a datagram has full size),
the daemon sends a reply of 20 bytes that decodes to a Response packet in Server
mode with operand 0 equal to `(a * b) mod 2 ^ 32`; function id and operand 1
are those of the request. -/
theorem server_multiply (s : ServerState) (dgram : List Nat) (a b : Nat) (hs : s.wf)
    (hreq : decode dgram = (E_PL_NOERROR, ⟨PL_PTYPE_REQ, PL_MODE_CLN, PL_FID_MUL, [a, b]⟩)) :
    ∃ reply, (main_loop_iteration s (RecvEvent.datagram dgram)).2 = some reply ∧
      reply.length = 20 ∧
      decode reply =
        (E_PL_NOERROR, ⟨PL_PTYPE_RSP, PL_MODE_SRV, PL_FID_MUL, [(a * b) % 2 ^ 32, b]⟩) := by
  obtain ⟨hp, hsend, hlen, hdec, _⟩ := main_loop_iteration_reply s dgram _ hs hreq
  refine ⟨_, hsend, hlen, ?_⟩
  rw [hdec]
  simp [main_dispatch, E_PL_NOERROR, PL_PTYPE_REQ, PL_MODE_CLN, PL_FID_MUL,
    pl_create_response, PL_PTYPE_RSP, PL_MODE_SRV, to_unsigned_to_int, umul]

theorem server_multiply_witness :
    ∃ reply, (main_loop_iteration server_zero (RecvEvent.datagram
          [0, 0, 0, 1, 0, 0, 0, 1, 0, 0, 0, 1, 255, 255, 255, 255, 0, 0, 0, 3])).2 =
        some reply ∧
      reply.length = 20 ∧
      decode reply =
        (E_PL_NOERROR,
          ⟨PL_PTYPE_RSP, PL_MODE_SRV, PL_FID_MUL, [(4294967295 * 3) % 2 ^ 32, 3]⟩) :=
  server_multiply server_zero
    [0, 0, 0, 1, 0, 0, 0, 1, 0, 0, 0, 1, 255, 255, 255, 255, 0, 0, 0, 3] 4294967295 3
    (by decide) (by decide)

/-- C6. Unknown function: for every datagram that decodes to a Request in
Client mode with a function id that is neither 1 nor 2, whatever the operands,
the daemon sends a reply of 20 bytes that decodes to an Error packet in Server
mode with operand 0 equal to 5; function id and operand 1 are those of the
request. -/
theorem server_unknown_function (s : ServerState) (dgram : List Nat) (f a b : Nat)
    (hs : s.wf) (hf1 : f ≠ 1) (hf2 : f ≠ 2)
    (hreq : decode dgram = (E_PL_NOERROR, ⟨PL_PTYPE_REQ, PL_MODE_CLN, f, [a, b]⟩)) :
    ∃ reply, (main_loop_iteration s (RecvEvent.datagram dgram)).2 = some reply ∧
      reply.length = 20 ∧
      decode reply = (E_PL_NOERROR, ⟨PL_PTYPE_ERR, PL_MODE_SRV, f, [5, b]⟩) := by
  obtain ⟨hp, hsend, hlen, hdec, _⟩ := main_loop_iteration_reply s dgram _ hs hreq
  refine ⟨_, hsend, hlen, ?_⟩
  rw [hdec]
  simp [main_dispatch, E_PL_NOERROR, PL_PTYPE_REQ, PL_MODE_CLN, PL_FID_MUL, PL_FID_DIV, hf1,
    hf2, pl_create_error, PL_PTYPE_ERR, PL_MODE_SRV, PL_ERR_NOSUCHFUNCTION]
  rfl

theorem server_unknown_function_witness :
    ∃ reply, (main_loop_iteration server_zero (RecvEvent.datagram
          [0, 0, 0, 1, 0, 0, 0, 1, 0, 0, 0, 0, 0, 0, 0, 6, 0, 0, 0, 7])).2 = some reply ∧
      reply.length = 20 ∧
      decode reply = (E_PL_NOERROR, ⟨PL_PTYPE_ERR, PL_MODE_SRV, 0, [5, 7]⟩) :=
  server_unknown_function server_zero
    [0, 0, 0, 1, 0, 0, 0, 1, 0, 0, 0, 0, 0, 0, 0, 6, 0, 0, 0, 7] 0 6 7
    (by decide) (by decide) (by decide) (by decide)

/-- C7. Server validation of kind and mode, in that order: for every datagram
of full size, decoding to kind `k`, mode `m`, function id `f` and operands
`[a, b]`: if `k` is not Request the reply decodes to an Error packet in Server
mode with operand 0 equal to 2, whatever `m`, `f`, `a` and `b` are; if `k` is
Request and `m` is not Client the reply decodes to an Error packet in Server
mode with operand 0 equal to 3, whatever `f`, `a` and `b` are. In both cases
the operands of the reply are the code and the operand 1 of the request, no
product or quotient, and no branch of the dispatch has written to the
display. -/
theorem server_validation (s : ServerState) (dgram : List Nat) (k m f a b : Nat) (hs : s.wf)
    (hreq : decode dgram = (E_PL_NOERROR, ⟨k, m, f, [a, b]⟩)) :
    ∃ reply, (main_loop_iteration s (RecvEvent.datagram dgram)).2 = some reply ∧
      reply.length = 20 ∧
      (k ≠ PL_PTYPE_REQ →
        decode reply = (E_PL_NOERROR, ⟨PL_PTYPE_ERR, PL_MODE_SRV, f, [2, b]⟩) ∧
        (main_loop_iteration s (RecvEvent.datagram dgram)).1.sevenseg = s.sevenseg) ∧
      (k = PL_PTYPE_REQ → m ≠ PL_MODE_CLN →
        decode reply = (E_PL_NOERROR, ⟨PL_PTYPE_ERR, PL_MODE_SRV, f, [3, b]⟩) ∧
        (main_loop_iteration s (RecvEvent.datagram dgram)).1.sevenseg = s.sevenseg) := by
  obtain ⟨hp, hsend, hlen, hdec, hseg⟩ := main_loop_iteration_reply s dgram _ hs hreq
  refine ⟨_, hsend, hlen, ?_, ?_⟩
  · intro hk
    rw [hdec, hseg]
    have h2 : to_unsigned 2 = 2 := rfl
    simp [main_dispatch, E_PL_NOERROR, hk, pl_create_error, PL_ERR_INVALIDTYPE, h2]
  · intro hk hm
    rw [hdec, hseg]
    have h3 : to_unsigned 3 = 3 := rfl
    simp [main_dispatch, E_PL_NOERROR, hk, hm, pl_create_error, PL_ERR_INVALIDMODE, h3]

theorem server_validation_witness :
    (∃ reply, (main_loop_iteration server_zero (RecvEvent.datagram
          [0, 0, 0, 2, 0, 0, 0, 1, 0, 0, 0, 1, 0, 0, 0, 6, 0, 0, 0, 7])).2 = some reply ∧
      reply.length = 20 ∧
      (2 ≠ PL_PTYPE_REQ →
        decode reply = (E_PL_NOERROR, ⟨PL_PTYPE_ERR, PL_MODE_SRV, 1, [2, 7]⟩) ∧
        (main_loop_iteration server_zero (RecvEvent.datagram
          [0, 0, 0, 2, 0, 0, 0, 1, 0, 0, 0, 1, 0, 0, 0, 6, 0, 0, 0, 7])).1.sevenseg =
          server_zero.sevenseg) ∧
      (2 = PL_PTYPE_REQ → 1 ≠ PL_MODE_CLN →
        decode reply = (E_PL_NOERROR, ⟨PL_PTYPE_ERR, PL_MODE_SRV, 1, [3, 7]⟩) ∧
        (main_loop_iteration server_zero (RecvEvent.datagram
          [0, 0, 0, 2, 0, 0, 0, 1, 0, 0, 0, 1, 0, 0, 0, 6, 0, 0, 0, 7])).1.sevenseg =
          server_zero.sevenseg)) ∧
    (∃ reply, (main_loop_iteration server_zero (RecvEvent.datagram
          [0, 0, 0, 1, 0, 0, 0, 2, 0, 0, 0, 2, 0, 0, 0, 6, 0, 0, 0, 3])).2 = some reply ∧
      reply.length = 20 ∧
      (1 ≠ PL_PTYPE_REQ →
        decode reply = (E_PL_NOERROR, ⟨PL_PTYPE_ERR, PL_MODE_SRV, 2, [2, 3]⟩) ∧
        (main_loop_iteration server_zero (RecvEvent.datagram
          [0, 0, 0, 1, 0, 0, 0, 2, 0, 0, 0, 2, 0, 0, 0, 6, 0, 0, 0, 3])).1.sevenseg =
          server_zero.sevenseg) ∧
      (1 = PL_PTYPE_REQ → 2 ≠ PL_MODE_CLN →
        decode reply = (E_PL_NOERROR, ⟨PL_PTYPE_ERR, PL_MODE_SRV, 2, [3, 3]⟩) ∧
        (main_loop_iteration server_zero (RecvEvent.datagram
          [0, 0, 0, 1, 0, 0, 0, 2, 0, 0, 0, 2, 0, 0, 0, 6, 0, 0, 0, 3])).1.sevenseg =
          server_zero.sevenseg)) :=
  ⟨server_validation server_zero
      [0, 0, 0, 2, 0, 0, 0, 1, 0, 0, 0, 1, 0, 0, 0, 6, 0, 0, 0, 7] 2 1 1 6 7
      (by decide) (by decide),
   server_validation server_zero
      [0, 0, 0, 1, 0, 0, 0, 2, 0, 0, 0, 2, 0, 0, 0, 6, 0, 0, 0, 3] 1 2 2 6 3
      (by decide) (by decide)⟩

/-- One iteration of the main loop on a datagram shorter than a packet: the
extraction fails and the packet sent is the error packet made of the packet
structure as the iteration before left it. -/
theorem main_loop_iteration_short (s : ServerState) (dgram : List Nat)
    (hshort : dgram.length < PL_PACKETSIZE) :
    main_loop_iteration s (RecvEvent.datagram dgram) =
      ({ vsld_data := (pl_create_error s.vsld_data PL_ERR_GENERALERROR).2
         sndpacket := (pl_make_packet (pl_create_error s.vsld_data PL_ERR_GENERALERROR).2
           s.sndpacket PL_PACKETSIZE).2
         rcvpacket := dgram ++ s.rcvpacket.drop dgram.length
         sevenseg := s.sevenseg
         timeouts := s.timeouts ++ [VSLD_TIMEOUT_SECS] },
       some ((pl_make_packet (pl_create_error s.vsld_data PL_ERR_GENERALERROR).2
           s.sndpacket PL_PACKETSIZE).2.take PL_PACKETSIZE)) := by
  have hmin : min PL_PACKETSIZE dgram.length = dgram.length := Nat.min_eq_right (le_of_lt hshort)
  have h20 : dgram.length < 20 := hshort
  have hu : to_unsigned ((dgram.length : Nat) : Int) = dgram.length := by
    rw [to_unsigned_natCast]
    omega
  have hext : ∀ pk, pl_extr_packet pk s.vsld_data dgram.length =
      (-E_PL_INSUFFICIENTBUFFER, s.vsld_data) := by
    intro pk
    rw [pl_extr_packet, if_pos hshort]
  have hdis : main_dispatch (-E_PL_INSUFFICIENTBUFFER) s.vsld_data =
      ((pl_create_error s.vsld_data PL_ERR_GENERALERROR).2, []) := by
    simp [main_dispatch, E_PL_INSUFFICIENTBUFFER]
  simp only [main_loop_iteration, recvfrom, hmin, hu, hext, hdis, List.take_length,
    List.append_nil]

/-- C8. Server decode failure: for every received datagram shorter than the 20
bytes of a packet, decoding fails and the daemon sends a reply of 20 bytes that
decodes to an Error packet in Server mode with operand 0 equal to 1; the
function id and operand 1 of the reply are what the packet structure held
before, and no branch of the dispatch has written to the display. -/
theorem server_decode_failure (s : ServerState) (dgram : List Nat) (hs : s.wf)
    (hshort : dgram.length < 20) :
    (decode dgram).1 = -E_PL_INSUFFICIENTBUFFER ∧
    ∃ reply, (main_loop_iteration s (RecvEvent.datagram dgram)).2 = some reply ∧
      reply.length = 20 ∧
      decode reply =
        (E_PL_NOERROR,
          ⟨PL_PTYPE_ERR, PL_MODE_SRV, s.vsld_data.function_id,
            [1, s.vsld_data.data.getD 1 0]⟩) ∧
      (main_loop_iteration s (RecvEvent.datagram dgram)).1.sevenseg = s.sevenseg := by
  have hl : dgram.length < PL_PACKETSIZE := hshort
  have hit := main_loop_iteration_short s dgram hl
  have hlen : (pl_make_packet (pl_create_error s.vsld_data PL_ERR_GENERALERROR).2
      s.sndpacket PL_PACKETSIZE).2.length = PL_PACKETSIZE := by
    rw [pl_make_packet_length, hs.2.1]
  have htake : (pl_make_packet (pl_create_error s.vsld_data PL_ERR_GENERALERROR).2
      s.sndpacket PL_PACKETSIZE).2.take PL_PACKETSIZE =
      (pl_make_packet (pl_create_error s.vsld_data PL_ERR_GENERALERROR).2
      s.sndpacket PL_PACKETSIZE).2 := List.take_of_length_le (le_of_eq hlen)
  rw [htake] at hit
  refine ⟨?_, _, congrArg Prod.snd hit, hlen, ?_, ?_⟩
  · unfold decode
    rw [pl_extr_packet, if_pos hl]
  · rw [decode_make _ _ (pl_create_error_wf _ _ hs.1) hs.2.1]
    obtain ⟨hd, _, _⟩ := hs
    obtain ⟨vd, sp, rp, sg, tm⟩ := s
    obtain ⟨t, m, f, dd⟩ := vd
    obtain ⟨_, _, _, hl2, _⟩ := hd
    rcases dd with _ | ⟨x, _ | ⟨y, _ | ⟨z, r⟩⟩⟩ <;> simp [PL_OPERAND_COUNT] at hl2
    simp [pl_create_error, PL_ERR_GENERALERROR]
    rfl
  · rw [hit]

theorem server_decode_failure_witness :
    (decode [0, 0, 0, 1, 0, 0, 0, 1, 0, 0, 0, 1, 0, 0, 0, 6, 0, 0, 0]).1 =
      -E_PL_INSUFFICIENTBUFFER ∧
    ∃ reply, (main_loop_iteration server_zero (RecvEvent.datagram
        [0, 0, 0, 1, 0, 0, 0, 1, 0, 0, 0, 1, 0, 0, 0, 6, 0, 0, 0])).2 = some reply ∧
      reply.length = 20 ∧
      decode reply =
        (E_PL_NOERROR,
          ⟨PL_PTYPE_ERR, PL_MODE_SRV, server_zero.vsld_data.function_id,
            [1, server_zero.vsld_data.data.getD 1 0]⟩) ∧
      (main_loop_iteration server_zero (RecvEvent.datagram
        [0, 0, 0, 1, 0, 0, 0, 1, 0, 0, 0, 1, 0, 0, 0, 6, 0, 0, 0])).1.sevenseg =
        server_zero.sevenseg :=
  server_decode_failure server_zero [0, 0, 0, 1, 0, 0, 0, 1, 0, 0, 0, 1, 0, 0, 0, 6, 0, 0, 0]
    (by decide) (by decide)

/-! ## Lemmas on the client library -/

theorem pl_extr_packet_eq_decode (bytes : List Nat) (d : pl_data) (len : Nat)
    (hlen : PL_PACKETSIZE ≤ len) (hb : PL_PACKETSIZE ≤ bytes.length)
    (hd : d.data.length = PL_OPERAND_COUNT) : pl_extr_packet bytes d len = decode bytes := by
  rw [pl_extr_packet_eq bytes d len hlen hd, decode_eq bytes hb]

/-- The request packet `vslcl_call_function` builds. -/
theorem vslcl_request_eq (d : pl_data) (hd : d.data.length = PL_OPERAND_COUNT) (fid x y : Int) :
    (List.range PL_OPERAND_COUNT).foldl
      (fun (d : pl_data) (i : Nat) =>
        ({ d with data := d.data.set i (to_unsigned (([x, y] : List Int).getD i 0)) } : pl_data))
      ({ type := (pl_create_request d).2.type, mode := (pl_create_request d).2.mode,
         function_id := to_unsigned fid, data := (pl_create_request d).2.data } : pl_data) =
    ⟨PL_PTYPE_REQ, PL_MODE_CLN, to_unsigned fid, [to_unsigned x, to_unsigned y]⟩ := by
  obtain ⟨t, m, f, dd⟩ := d
  rcases dd with _ | ⟨x0, _ | ⟨y0, _ | ⟨z, r⟩⟩⟩ <;> simp [PL_OPERAND_COUNT] at hd
  rw [range_operand_count]
  simp [pl_create_request]

/-- A call of `vslcl_call_function` over a channel without loss: return value
and operand array are made of the packet the dispatch of the daemon makes of the
request. -/
theorem vslcl_call_function_lossless (c : ClientState) (srv : ServerState) (fid x y : Int)
    (hc : c.wf) (hs : srv.wf) :
    (vslcl_call_function c (lossless srv) fid [x, y]).1 =
      (if (main_dispatch E_PL_NOERROR
            ⟨PL_PTYPE_REQ, PL_MODE_CLN, to_unsigned fid, [to_unsigned x, to_unsigned y]⟩).1.type =
          PL_PTYPE_ERR then
        to_int (uneg ((main_dispatch E_PL_NOERROR
            ⟨PL_PTYPE_REQ, PL_MODE_CLN, to_unsigned fid,
              [to_unsigned x, to_unsigned y]⟩).1.data.getD 0 0))
      else if (main_dispatch E_PL_NOERROR
            ⟨PL_PTYPE_REQ, PL_MODE_CLN, to_unsigned fid, [to_unsigned x, to_unsigned y]⟩).1.type =
          PL_PTYPE_RSP then EVSLCL_NOERROR
      else -EVSLCL_UNKNOWN_ERROR) ∧
    (vslcl_call_function c (lossless srv) fid [x, y]).2.1 =
      [to_int ((main_dispatch E_PL_NOERROR
          ⟨PL_PTYPE_REQ, PL_MODE_CLN, to_unsigned fid,
            [to_unsigned x, to_unsigned y]⟩).1.data.getD 0 0),
       to_int ((main_dispatch E_PL_NOERROR
          ⟨PL_PTYPE_REQ, PL_MODE_CLN, to_unsigned fid,
            [to_unsigned x, to_unsigned y]⟩).1.data.getD 1 0)] := by
  obtain ⟨hcd, hcs, hcr, _⟩ := hc
  have hbuild := vslcl_request_eq c.vsls_data hcd.2.2.2.1 fid x y
  generalize hreq : (⟨PL_PTYPE_REQ, PL_MODE_CLN, to_unsigned fid,
    [to_unsigned x, to_unsigned y]⟩ : pl_data) = req at hbuild ⊢
  have hreq_wf : req.wf := by
    subst hreq
    refine ⟨by norm_num [PL_PTYPE_REQ], by norm_num [PL_MODE_CLN], to_unsigned_lt _, rfl, ?_⟩
    intro v hv
    simp at hv
    rcases hv with rfl | rfl <;> exact to_unsigned_lt _
  have hsndlen : (pl_make_packet req c.sndpacket PL_PACKETSIZE).2.length = PL_PACKETSIZE := by
    rw [pl_make_packet_length, hcs]
  have htake : (pl_make_packet req c.sndpacket PL_PACKETSIZE).2.take PL_PACKETSIZE =
      (pl_make_packet req c.sndpacket PL_PACKETSIZE).2 :=
    List.take_of_length_le (le_of_eq hsndlen)
  have hdec := decode_make req c.sndpacket hreq_wf hcs
  obtain ⟨_, hsend, hlen, hdec2, _⟩ := main_loop_iteration_reply srv _ req hs hdec
  generalize ho : main_dispatch E_PL_NOERROR req = o at hsend hlen hdec2 ⊢
  generalize hrep : (pl_make_packet o.1 srv.sndpacket PL_PACKETSIZE).2 = reply
    at hsend hlen hdec2
  have hnet : lossless srv (pl_make_packet req c.sndpacket PL_PACKETSIZE).2 =
      RecvEvent.datagram reply := by
    unfold lossless
    rw [hsend]
  have hrecv : recvfrom c.rcvpacket PL_PACKETSIZE reply =
      (((PL_PACKETSIZE : Nat) : Int), reply) := by
    have hdrop : c.rcvpacket.drop PL_PACKETSIZE = [] := by
      apply List.drop_eq_nil_of_le
      omega
    have ht : reply.take PL_PACKETSIZE = reply := List.take_of_length_le (le_of_eq hlen)
    simp only [recvfrom, hlen, Nat.min_self, hdrop, ht, List.append_nil]
  have hu : to_unsigned ((PL_PACKETSIZE : Nat) : Int) = PL_PACKETSIZE := by decide
  have hext : pl_extr_packet reply req PL_PACKETSIZE = (E_PL_NOERROR, o.1) := by
    rw [pl_extr_packet_eq_decode reply req _ (le_refl _) (le_of_eq hlen.symm) hreq_wf.2.2.2.1,
      hdec2]
  have hfold : ∀ d : pl_data, (List.range PL_OPERAND_COUNT).foldl
      (fun p i => p.set i (to_int (d.data.getD i 0))) [x, y] =
      [to_int (d.data.getD 0 0), to_int (d.data.getD 1 0)] := by
    intro d
    rw [range_operand_count]
    simp
  generalize lossless srv = net at hnet ⊢
  unfold vslcl_call_function
  dsimp only
  rw [hbuild, htake, hnet]
  dsimp only
  rw [hrecv]
  dsimp only
  rw [hu, hext, hfold]
  dsimp only
  constructor
  · split
    · rfl
    · split <;> rfl
  · split
    · rfl
    · split <;> rfl

theorem main_dispatch_mul (a b : Nat) :
    main_dispatch E_PL_NOERROR ⟨PL_PTYPE_REQ, PL_MODE_CLN, PL_FID_MUL, [a, b]⟩ =
      (⟨PL_PTYPE_RSP, PL_MODE_SRV, PL_FID_MUL, [(a * b) % 4294967296, b]⟩, ['1']) := by
  simp [main_dispatch, E_PL_NOERROR, PL_PTYPE_REQ, PL_MODE_CLN, PL_FID_MUL,
    pl_create_response, PL_PTYPE_RSP, PL_MODE_SRV, to_unsigned_to_int, umul]

theorem main_dispatch_div (a b : Nat) (ha : a < 4294967296) (hb : b ≠ 0) :
    main_dispatch E_PL_NOERROR ⟨PL_PTYPE_REQ, PL_MODE_CLN, PL_FID_DIV, [a, b]⟩ =
      (⟨PL_PTYPE_RSP, PL_MODE_SRV, PL_FID_DIV, [a / b, b]⟩, ['2']) := by
  have hq : a / b % 4294967296 = a / b :=
    Nat.mod_eq_of_lt (lt_of_le_of_lt (Nat.div_le_self a b) ha)
  simp [main_dispatch, E_PL_NOERROR, PL_PTYPE_REQ, PL_MODE_CLN, PL_FID_DIV, PL_FID_MUL, hb,
    pl_create_response, PL_PTYPE_RSP, PL_MODE_SRV, to_unsigned_to_int, udiv, hq]

theorem main_dispatch_div_zero (a : Nat) :
    main_dispatch E_PL_NOERROR ⟨PL_PTYPE_REQ, PL_MODE_CLN, PL_FID_DIV, [a, 0]⟩ =
      (⟨PL_PTYPE_ERR, PL_MODE_SRV, PL_FID_DIV, [4, 0]⟩, ['E']) := rfl

theorem vslcl_params_eq (op1 op2 : Int) :
    (List.range' 2 (PL_OPERAND_COUNT - 2)).foldl (fun p i => p.set i 0) [op1, op2] =
      [op1, op2] := rfl

/-- `vslcl_Multiply` over a channel without loss. -/
theorem vslcl_Multiply_lossless (c : ClientState) (srv : ServerState) (op1 op2 result : Int)
    (hc : c.wf) (hs : srv.wf) (hopen : c.iVSLCLStatus = VSLCL_STATUS_ON) :
    (vslcl_Multiply c (lossless srv) op1 op2 result).1 = 0 ∧
    (vslcl_Multiply c (lossless srv) op1 op2 result).2.1 =
      to_int ((to_unsigned op1 * to_unsigned op2) % 4294967296) := by
  obtain ⟨hr, hp⟩ := vslcl_call_function_lossless c srv (PL_FID_MUL : Nat) op1 op2 hc hs
  have hf : to_unsigned ((PL_FID_MUL : Nat) : Int) = PL_FID_MUL := by decide
  rw [hf, main_dispatch_mul] at hr hp
  have hr0 : (vslcl_call_function c (lossless srv) (PL_FID_MUL : Nat) [op1, op2]).1 = 0 := by
    rw [hr]
    rfl
  have hnot : ¬ c.iVSLCLStatus ≠ VSLCL_STATUS_ON := not_not.mpr hopen
  unfold vslcl_Multiply
  rw [if_neg hnot]
  dsimp only
  rw [vslcl_params_eq, hr0, hp]
  exact ⟨rfl, rfl⟩

/-- `vslcl_Divide` over a channel without loss. -/
theorem vslcl_Divide_lossless (c : ClientState) (srv : ServerState) (op1 op2 result : Int)
    (hc : c.wf) (hs : srv.wf) (hopen : c.iVSLCLStatus = VSLCL_STATUS_ON) :
    (to_unsigned op2 ≠ 0 →
      (vslcl_Divide c (lossless srv) op1 op2 result).1 = 0 ∧
      (vslcl_Divide c (lossless srv) op1 op2 result).2.1 =
        to_int (to_unsigned op1 / to_unsigned op2)) ∧
    (to_unsigned op2 = 0 →
      (vslcl_Divide c (lossless srv) op1 op2 result).1 = -4 ∧
      (vslcl_Divide c (lossless srv) op1 op2 result).2.1 = result) := by
  obtain ⟨hr, hp⟩ := vslcl_call_function_lossless c srv (PL_FID_DIV : Nat) op1 op2 hc hs
  have hf : to_unsigned ((PL_FID_DIV : Nat) : Int) = PL_FID_DIV := by decide
  have hnot : ¬ c.iVSLCLStatus ≠ VSLCL_STATUS_ON := not_not.mpr hopen
  rw [hf] at hr hp
  constructor
  · intro hb
    rw [main_dispatch_div _ _ (to_unsigned_lt op1) hb] at hr hp
    have hr0 : (vslcl_call_function c (lossless srv) (PL_FID_DIV : Nat) [op1, op2]).1 = 0 := by
      rw [hr]
      rfl
    unfold vslcl_Divide
    rw [if_neg hnot]
    dsimp only
    rw [vslcl_params_eq, hr0, hp]
    exact ⟨rfl, rfl⟩
  · intro hb
    rw [hb, main_dispatch_div_zero] at hr
    have hr0 : (vslcl_call_function c (lossless srv) (PL_FID_DIV : Nat) [op1, op2]).1 = -4 := by
      rw [hr]
      rfl
    unfold vslcl_Divide
    rw [if_neg hnot]
    dsimp only
    rw [vslcl_params_eq, hr0]
    exact ⟨rfl, rfl⟩

theorem to_unsigned_cast (i : Int) : ((to_unsigned i : Nat) : Int) = i % 4294967296 := by
  unfold to_unsigned
  omega

theorem to_int_emod (n : Nat) : to_int n % 4294967296 = (n : Int) % 4294967296 := by
  unfold to_int
  split <;> omega

theorem is_int_to_int (n : Nat) : is_int (to_int n) := by
  unfold is_int to_int
  split <;> omega

theorem to_int_of_lt (n : Nat) (h : n < 2147483648) : to_int n = (n : Int) := by
  unfold to_int
  split <;> omega

theorem to_unsigned_of_nonneg (n : Nat) (h : (n : Int) < 2147483648) :
    to_unsigned (n : Int) = n := by
  unfold to_unsigned
  omega

/-- C9. End to end over a channel without loss, the client library open: for
all `int` values `op1` and `op2`, `vslcl_Multiply` returns 0 and writes an `int`
congruent to `op1 * op2` modulo `2 ^ 32`, equal to `op1 * op2` when the operands
are not negative and the product is below `2 ^ 31`; for `op1 >= 0` and
`op2 > 0`, `vslcl_Divide` returns 0 and writes the quotient `op1 / op2` rounded
down; `vslcl_Divide` with `op2 = 0` returns -4 and does not write the result. -/
theorem end_to_end (c : ClientState) (srv : ServerState) (op1 op2 result : Int) (hc : c.wf)
    (hs : srv.wf) (hopen : c.iVSLCLStatus = VSLCL_STATUS_ON) (h1 : is_int op1)
    (h2 : is_int op2) :
    ((vslcl_Multiply c (lossless srv) op1 op2 result).1 = 0 ∧
      is_int (vslcl_Multiply c (lossless srv) op1 op2 result).2.1 ∧
      (vslcl_Multiply c (lossless srv) op1 op2 result).2.1 % 2 ^ 32 = (op1 * op2) % 2 ^ 32 ∧
      (0 ≤ op1 → 0 ≤ op2 → op1 * op2 < 2 ^ 31 →
        (vslcl_Multiply c (lossless srv) op1 op2 result).2.1 = op1 * op2)) ∧
    (0 ≤ op1 → 0 < op2 →
      (vslcl_Divide c (lossless srv) op1 op2 result).1 = 0 ∧
      (vslcl_Divide c (lossless srv) op1 op2 result).2.1 = op1 / op2) ∧
    (op2 = 0 →
      (vslcl_Divide c (lossless srv) op1 op2 result).1 = -4 ∧
      (vslcl_Divide c (lossless srv) op1 op2 result).2.1 = result) := by
  obtain ⟨hm1, hm2⟩ := vslcl_Multiply_lossless c srv op1 op2 result hc hs hopen
  obtain ⟨hd1, hd2⟩ := vslcl_Divide_lossless c srv op1 op2 result hc hs hopen
  obtain ⟨h1l, h1u⟩ := h1
  obtain ⟨h2l, h2u⟩ := h2
  refine ⟨⟨hm1, ?_, ?_, ?_⟩, ?_, ?_⟩
  · rw [hm2]
    exact is_int_to_int _
  · rw [hm2]
    have e : ((2 : Int) ^ 32) = 4294967296 := by norm_num
    rw [e, to_int_emod]
    push_cast
    rw [Int.emod_emod_of_dvd _ (dvd_refl _), to_unsigned_cast, to_unsigned_cast,
      ← Int.mul_emod]
  · intro hn1 hn2 hprod
    rw [hm2]
    obtain ⟨n1, rfl⟩ := Int.eq_ofNat_of_zero_le hn1
    obtain ⟨n2, rfl⟩ := Int.eq_ofNat_of_zero_le hn2
    rw [to_unsigned_of_nonneg n1 h1u, to_unsigned_of_nonneg n2 h2u]
    have hP : n1 * n2 < 2147483648 := by
      have : ((n1 * n2 : Nat) : Int) < 2147483648 := by
        push_cast
        norm_num at hprod
        exact hprod
      exact_mod_cast this
    rw [Nat.mod_eq_of_lt (by omega), to_int_of_lt _ hP]
    push_cast
    rfl
  · intro hn1 hpos
    obtain ⟨n1, rfl⟩ := Int.eq_ofNat_of_zero_le hn1
    obtain ⟨n2, rfl⟩ := Int.eq_ofNat_of_zero_le (le_of_lt hpos)
    have hu1 := to_unsigned_of_nonneg n1 h1u
    have hu2 := to_unsigned_of_nonneg n2 h2u
    have hne : to_unsigned (n2 : Int) ≠ 0 := by
      rw [hu2]
      omega
    obtain ⟨hr, hv⟩ := hd1 hne
    refine ⟨hr, ?_⟩
    rw [hv, hu1, hu2]
    have hq : n1 / n2 < 2147483648 := by
      have := Nat.div_le_self n1 n2
      omega
    rw [to_int_of_lt _ hq]
    push_cast
    rfl
  · intro hz
    subst hz
    exact hd2 rfl

theorem end_to_end_witness :
    ((vslcl_Multiply client_open (lossless server_zero) 6 7 0).1 = 0 ∧
      (vslcl_Multiply client_open (lossless server_zero) 6 7 0).2.1 = 42) ∧
    ((vslcl_Divide client_open (lossless server_zero) 20 4 0).1 = 0 ∧
      (vslcl_Divide client_open (lossless server_zero) 20 4 0).2.1 = 5) ∧
    ((vslcl_Divide client_open (lossless server_zero) 5 0 77).1 = -4 ∧
      (vslcl_Divide client_open (lossless server_zero) 5 0 77).2.1 = 77) :=
  ⟨⟨(end_to_end client_open server_zero 6 7 0 (by decide) (by decide) (by decide) (by decide)
        (by decide)).1.1,
     (end_to_end client_open server_zero 6 7 0 (by decide) (by decide) (by decide) (by decide)
        (by decide)).1.2.2.2 (by decide) (by decide) (by decide)⟩,
   (end_to_end client_open server_zero 20 4 0 (by decide) (by decide) (by decide) (by decide)
        (by decide)).2.1 (by decide) (by decide),
   (end_to_end client_open server_zero 5 0 77 (by decide) (by decide) (by decide) (by decide)
        (by decide)).2.2 rfl⟩

/-- C10. Closed session: when the status of the client library is
`VSLCL_STATUS_OFF`, `vslcl_Multiply` and `vslcl_Divide` return
`-EVSLCL_STATUS_OFF = -103` and leave the variable `result` and the whole state
of the library as they were: no datagram is sent, no timeout is started and the
status stays `VSLCL_STATUS_OFF`. The status is `VSLCL_STATUS_OFF` at program
start, after a `vslcl_Open` that failed and after a `vslcl_Close` that
succeeded. -/
theorem closed_session (c : ClientState) (net : List Nat → RecvEvent) (op1 op2 result : Int)
    (hclosed : c.iVSLCLStatus = VSLCL_STATUS_OFF) :
    -EVSLCL_STATUS_OFF = -103 ∧
    vslcl_Multiply c net op1 op2 result = (-EVSLCL_STATUS_OFF, result, c) ∧
    vslcl_Divide c net op1 op2 result = (-EVSLCL_STATUS_OFF, result, c) ∧
    (vslcl_Multiply c net op1 op2 result).2.2.sent = c.sent ∧
    (vslcl_Multiply c net op1 op2 result).2.2.timeouts = c.timeouts ∧
    (vslcl_Multiply c net op1 op2 result).2.2.iVSLCLStatus = VSLCL_STATUS_OFF ∧
    (vslcl_Divide c net op1 op2 result).2.2.sent = c.sent ∧
    (vslcl_Divide c net op1 op2 result).2.2.timeouts = c.timeouts ∧
    (vslcl_Divide c net op1 op2 result).2.2.iVSLCLStatus = VSLCL_STATUS_OFF ∧
    client_init.iVSLCLStatus = VSLCL_STATUS_OFF ∧
    (∀ (c0 : ClientState) (socket_ret bind_ret : Int),
      (vslcl_Open c0 socket_ret bind_ret).1 ≠ EVSLCL_NOERROR →
      (vslcl_Open c0 socket_ret bind_ret).2.iVSLCLStatus = VSLCL_STATUS_OFF) ∧
    (∀ c0 : ClientState, (vslcl_Close c0).1 = EVSLCL_NOERROR →
      (vslcl_Close c0).2.iVSLCLStatus = VSLCL_STATUS_OFF) := by
  have hoff : c.iVSLCLStatus ≠ VSLCL_STATUS_ON := by
    rw [hclosed]
    decide
  have hm : vslcl_Multiply c net op1 op2 result = (-EVSLCL_STATUS_OFF, result, c) := by
    unfold vslcl_Multiply
    rw [if_pos hoff]
  have hd : vslcl_Divide c net op1 op2 result = (-EVSLCL_STATUS_OFF, result, c) := by
    unfold vslcl_Divide
    rw [if_pos hoff]
  refine ⟨rfl, hm, hd, ?_, ?_, ?_, ?_, ?_, ?_, rfl, ?_, ?_⟩
  · rw [hm]
  · rw [hm]
  · rw [hm]
    exact hclosed
  · rw [hd]
  · rw [hd]
  · rw [hd]
    exact hclosed
  · intro c0 socket_ret bind_ret hfail
    unfold vslcl_Open at hfail ⊢
    dsimp only at hfail ⊢
    split
    · rfl
    · split
      · rfl
      · rename_i h1 h2
        rw [if_neg h1, if_neg h2] at hfail
        exact absurd rfl hfail
  · intro c0 hok
    unfold vslcl_Close at hok ⊢
    split
    · rename_i h
      rw [if_pos h] at hok
      have : (-EVSLCL_STATUS_OFF : Int) ≠ EVSLCL_NOERROR := by decide
      exact absurd hok this
    · rfl

theorem closed_session_witness :
    -EVSLCL_STATUS_OFF = -103 ∧
    vslcl_Multiply client_init (lossless server_zero) 6 7 99 =
      (-EVSLCL_STATUS_OFF, 99, client_init) ∧
    vslcl_Divide client_init (lossless server_zero) 6 7 99 =
      (-EVSLCL_STATUS_OFF, 99, client_init) ∧
    (vslcl_Multiply client_init (lossless server_zero) 6 7 99).2.2.sent = client_init.sent ∧
    (vslcl_Multiply client_init (lossless server_zero) 6 7 99).2.2.timeouts =
      client_init.timeouts ∧
    (vslcl_Multiply client_init (lossless server_zero) 6 7 99).2.2.iVSLCLStatus =
      VSLCL_STATUS_OFF ∧
    (vslcl_Divide client_init (lossless server_zero) 6 7 99).2.2.sent = client_init.sent ∧
    (vslcl_Divide client_init (lossless server_zero) 6 7 99).2.2.timeouts =
      client_init.timeouts ∧
    (vslcl_Divide client_init (lossless server_zero) 6 7 99).2.2.iVSLCLStatus =
      VSLCL_STATUS_OFF ∧
    client_init.iVSLCLStatus = VSLCL_STATUS_OFF ∧
    (∀ (c0 : ClientState) (socket_ret bind_ret : Int),
      (vslcl_Open c0 socket_ret bind_ret).1 ≠ EVSLCL_NOERROR →
      (vslcl_Open c0 socket_ret bind_ret).2.iVSLCLStatus = VSLCL_STATUS_OFF) ∧
    (∀ c0 : ClientState, (vslcl_Close c0).1 = EVSLCL_NOERROR →
      (vslcl_Close c0).2.iVSLCLStatus = VSLCL_STATUS_OFF) :=
  closed_session client_init (lossless server_zero) 6 7 99 rfl

/-! ## Lemmas on the client library and a given reply -/

theorem recvfrom_full (buf dgram : List Nat) (hbuf : buf.length = PL_PACKETSIZE)
    (hfull : PL_PACKETSIZE ≤ dgram.length) :
    recvfrom buf PL_PACKETSIZE dgram =
      (((PL_PACKETSIZE : Nat) : Int), dgram.take PL_PACKETSIZE) := by
  have hmin : min PL_PACKETSIZE dgram.length = PL_PACKETSIZE := Nat.min_eq_left hfull
  have hdrop : buf.drop PL_PACKETSIZE = [] := by
    apply List.drop_eq_nil_of_le
    omega
  simp only [recvfrom, hmin, hdrop, List.append_nil]

theorem recvfrom_short (buf dgram : List Nat) (hshort : dgram.length < PL_PACKETSIZE) :
    recvfrom buf PL_PACKETSIZE dgram =
      (((dgram.length : Nat) : Int), dgram ++ buf.drop dgram.length) := by
  have hmin : min PL_PACKETSIZE dgram.length = dgram.length :=
    Nat.min_eq_right (le_of_lt hshort)
  simp only [recvfrom, hmin, List.take_length]

theorem pl_extr_packet_take (dgram : List Nat) (d : pl_data)
    (hfull : PL_PACKETSIZE ≤ dgram.length) (hd : d.data.length = PL_OPERAND_COUNT) :
    pl_extr_packet (dgram.take PL_PACKETSIZE) d PL_PACKETSIZE = decode dgram := by
  rw [pl_extr_packet_eq _ _ _ (le_refl _) hd, decode_eq dgram hfull]
  have h : ∀ k, k + 4 ≤ PL_PACKETSIZE →
      load_ntohl (dgram.take PL_PACKETSIZE) k = load_ntohl dgram k := by
    intro k hk
    have := load_ntohl_take_append dgram [] PL_PACKETSIZE k hk hfull
    simpa using this
  rw [h 0 (by decide), h 4 (by decide), h 8 (by decide), h 12 (by decide), h 16 (by decide)]

theorem vslcl_request_wf (fid x y : Int) :
    (⟨PL_PTYPE_REQ, PL_MODE_CLN, to_unsigned fid, [to_unsigned x, to_unsigned y]⟩ :
      pl_data).wf := by
  refine ⟨by norm_num [PL_PTYPE_REQ], by norm_num [PL_MODE_CLN], to_unsigned_lt _, rfl, ?_⟩
  intro v hv
  simp at hv
  rcases hv with rfl | rfl <;> exact to_unsigned_lt _

theorem vslcl_param_fold (x y : Int) (d : pl_data) :
    (List.range PL_OPERAND_COUNT).foldl
      (fun p i => p.set i (to_int (d.data.getD i 0))) [x, y] =
      [to_int (d.data.getD 0 0), to_int (d.data.getD 1 0)] := by
  rw [range_operand_count]
  simp

/-- A call of `vslcl_call_function` that receives a datagram of full size:
return value and operand array are made of the packet the datagram decodes
to. -/
theorem vslcl_call_function_full (c : ClientState) (net : List Nat → RecvEvent)
    (fid x y : Int) (reply : List Nat) (p : pl_data) (hc : c.wf)
    (hnet : net (pl_make_packet
        ⟨PL_PTYPE_REQ, PL_MODE_CLN, to_unsigned fid, [to_unsigned x, to_unsigned y]⟩
        c.sndpacket PL_PACKETSIZE).2 = RecvEvent.datagram reply)
    (hdec : decode reply = (E_PL_NOERROR, p)) :
    (vslcl_call_function c net fid [x, y]).1 =
      (if p.type = PL_PTYPE_ERR then to_int (uneg (p.data.getD 0 0))
       else if p.type = PL_PTYPE_RSP then EVSLCL_NOERROR
       else -EVSLCL_UNKNOWN_ERROR) ∧
    (vslcl_call_function c net fid [x, y]).2.1 =
      [to_int (p.data.getD 0 0), to_int (p.data.getD 1 0)] := by
  obtain ⟨hcd, hcs, hcr, _⟩ := hc
  have hfull := decode_full reply p hdec
  have hbuild := vslcl_request_eq c.vsls_data hcd.2.2.2.1 fid x y
  have hreq_wf := vslcl_request_wf fid x y
  generalize (⟨PL_PTYPE_REQ, PL_MODE_CLN, to_unsigned fid,
    [to_unsigned x, to_unsigned y]⟩ : pl_data) = req at hbuild hnet hreq_wf
  have hsndlen : (pl_make_packet req c.sndpacket PL_PACKETSIZE).2.length = PL_PACKETSIZE := by
    rw [pl_make_packet_length, hcs]
  have htake : (pl_make_packet req c.sndpacket PL_PACKETSIZE).2.take PL_PACKETSIZE =
      (pl_make_packet req c.sndpacket PL_PACKETSIZE).2 :=
    List.take_of_length_le (le_of_eq hsndlen)
  have hrecv := recvfrom_full c.rcvpacket reply hcr hfull
  have hu : to_unsigned ((PL_PACKETSIZE : Nat) : Int) = PL_PACKETSIZE := by decide
  have hext : pl_extr_packet (reply.take PL_PACKETSIZE) req PL_PACKETSIZE =
      (E_PL_NOERROR, p) := by
    rw [pl_extr_packet_take reply req hfull hreq_wf.2.2.2.1, hdec]
  unfold vslcl_call_function
  dsimp only
  rw [hbuild, htake, hnet]
  dsimp only
  rw [hrecv]
  dsimp only
  rw [hu, hext, vslcl_param_fold]
  dsimp only
  constructor
  · split
    · rfl
    · split <;> rfl
  · split
    · rfl
    · split <;> rfl

/-- A call of `vslcl_call_function` that receives a datagram shorter than a
packet: the extraction fails, its return value is not looked at, and the packet
structure still holds the request. -/
theorem vslcl_call_function_short (c : ClientState) (net : List Nat → RecvEvent)
    (fid x y : Int) (reply : List Nat) (hc : c.wf)
    (hnet : net (pl_make_packet
        ⟨PL_PTYPE_REQ, PL_MODE_CLN, to_unsigned fid, [to_unsigned x, to_unsigned y]⟩
        c.sndpacket PL_PACKETSIZE).2 = RecvEvent.datagram reply)
    (hshort : reply.length < PL_PACKETSIZE) :
    (vslcl_call_function c net fid [x, y]).1 = -EVSLCL_UNKNOWN_ERROR ∧
    (vslcl_call_function c net fid [x, y]).2.1 =
      [to_int (to_unsigned x), to_int (to_unsigned y)] := by
  obtain ⟨hcd, hcs, hcr, _⟩ := hc
  have hbuild := vslcl_request_eq c.vsls_data hcd.2.2.2.1 fid x y
  have htake : (pl_make_packet ⟨PL_PTYPE_REQ, PL_MODE_CLN, to_unsigned fid,
      [to_unsigned x, to_unsigned y]⟩ c.sndpacket PL_PACKETSIZE).2.take PL_PACKETSIZE =
      (pl_make_packet ⟨PL_PTYPE_REQ, PL_MODE_CLN, to_unsigned fid,
      [to_unsigned x, to_unsigned y]⟩ c.sndpacket PL_PACKETSIZE).2 := by
    apply List.take_of_length_le
    rw [pl_make_packet_length, hcs]
  have hrecv := recvfrom_short c.rcvpacket reply hshort
  have h20 : reply.length < 20 := hshort
  have hu : to_unsigned ((reply.length : Nat) : Int) = reply.length := by
    rw [to_unsigned_natCast]
    omega
  have hext : ∀ pk d, pl_extr_packet pk d reply.length = (-E_PL_INSUFFICIENTBUFFER, d) := by
    intro pk d
    rw [pl_extr_packet, if_pos hshort]
  unfold vslcl_call_function
  dsimp only
  rw [hbuild, htake, hnet]
  dsimp only
  rw [hrecv]
  dsimp only
  rw [hu, hext, vslcl_param_fold]
  exact ⟨rfl, rfl⟩

/-- What `vslcl_call_function` records, whatever the receive delivers: one
datagram sent, one timeout of 5 seconds started, the status not touched. -/
theorem vslcl_call_function_sent (c : ClientState) (net : List Nat → RecvEvent)
    (fid x y : Int) (hc : c.wf) :
    (vslcl_call_function c net fid [x, y]).2.2.sent =
      c.sent ++ [(pl_make_packet
        ⟨PL_PTYPE_REQ, PL_MODE_CLN, to_unsigned fid, [to_unsigned x, to_unsigned y]⟩
        c.sndpacket PL_PACKETSIZE).2] ∧
    (vslcl_call_function c net fid [x, y]).2.2.timeouts = c.timeouts ++ [5] ∧
    (vslcl_call_function c net fid [x, y]).2.2.iVSLCLStatus = c.iVSLCLStatus := by
  obtain ⟨hcd, hcs, hcr, _⟩ := hc
  have hbuild := vslcl_request_eq c.vsls_data hcd.2.2.2.1 fid x y
  have htake : (pl_make_packet ⟨PL_PTYPE_REQ, PL_MODE_CLN, to_unsigned fid,
      [to_unsigned x, to_unsigned y]⟩ c.sndpacket PL_PACKETSIZE).2.take PL_PACKETSIZE =
      (pl_make_packet ⟨PL_PTYPE_REQ, PL_MODE_CLN, to_unsigned fid,
      [to_unsigned x, to_unsigned y]⟩ c.sndpacket PL_PACKETSIZE).2 := by
    apply List.take_of_length_le
    rw [pl_make_packet_length, hcs]
  unfold vslcl_call_function
  dsimp only
  rw [hbuild, htake]
  split
  · exact ⟨rfl, rfl, rfl⟩
  · split
    · exact ⟨rfl, rfl, rfl⟩
    · split <;> exact ⟨rfl, rfl, rfl⟩
  · split
    · exact ⟨rfl, rfl, rfl⟩
    · split <;> exact ⟨rfl, rfl, rfl⟩

/-! ## The client library and what it receives -/

/-- C13. Client timeout: for every function id and operands, if the receive
that follows the send of the request is reported as timed out,
`vslcl_call_function` returns `-EVSLCL_NET_TIMEOUT = -105`, exactly one
datagram, the request, has been sent, the one timeout started was of 5 seconds,
and the operand array of the caller is unchanged. -/
theorem client_timeout (c : ClientState) (net : List Nat → RecvEvent) (fid x y : Int)
    (hc : c.wf)
    (hnet : net (pl_make_packet
        ⟨PL_PTYPE_REQ, PL_MODE_CLN, to_unsigned fid, [to_unsigned x, to_unsigned y]⟩
        c.sndpacket PL_PACKETSIZE).2 = RecvEvent.timeout) :
    (vslcl_call_function c net fid [x, y]).1 = -EVSLCL_NET_TIMEOUT ∧
    -EVSLCL_NET_TIMEOUT = -105 ∧
    (vslcl_call_function c net fid [x, y]).2.1 = [x, y] ∧
    (vslcl_call_function c net fid [x, y]).2.2.sent =
      c.sent ++ [(pl_make_packet
        ⟨PL_PTYPE_REQ, PL_MODE_CLN, to_unsigned fid, [to_unsigned x, to_unsigned y]⟩
        c.sndpacket PL_PACKETSIZE).2] ∧
    (vslcl_call_function c net fid [x, y]).2.2.timeouts = c.timeouts ++ [5] := by
  obtain ⟨hsent, htime, _⟩ := vslcl_call_function_sent c net fid x y hc
  refine ⟨?_, rfl, ?_, hsent, htime⟩
  · obtain ⟨hcd, hcs, hcr, _⟩ := hc
    have hbuild := vslcl_request_eq c.vsls_data hcd.2.2.2.1 fid x y
    have htake : (pl_make_packet ⟨PL_PTYPE_REQ, PL_MODE_CLN, to_unsigned fid,
        [to_unsigned x, to_unsigned y]⟩ c.sndpacket PL_PACKETSIZE).2.take PL_PACKETSIZE =
        (pl_make_packet ⟨PL_PTYPE_REQ, PL_MODE_CLN, to_unsigned fid,
        [to_unsigned x, to_unsigned y]⟩ c.sndpacket PL_PACKETSIZE).2 := by
      apply List.take_of_length_le
      rw [pl_make_packet_length, hcs]
    unfold vslcl_call_function
    dsimp only
    rw [hbuild, htake, hnet]
  · obtain ⟨hcd, hcs, hcr, _⟩ := hc
    have hbuild := vslcl_request_eq c.vsls_data hcd.2.2.2.1 fid x y
    have htake : (pl_make_packet ⟨PL_PTYPE_REQ, PL_MODE_CLN, to_unsigned fid,
        [to_unsigned x, to_unsigned y]⟩ c.sndpacket PL_PACKETSIZE).2.take PL_PACKETSIZE =
        (pl_make_packet ⟨PL_PTYPE_REQ, PL_MODE_CLN, to_unsigned fid,
        [to_unsigned x, to_unsigned y]⟩ c.sndpacket PL_PACKETSIZE).2 := by
      apply List.take_of_length_le
      rw [pl_make_packet_length, hcs]
    unfold vslcl_call_function
    dsimp only
    rw [hbuild, htake, hnet]

theorem client_timeout_witness :
    (vslcl_call_function client_open (fun _ => RecvEvent.timeout) 1 [6, 7]).1 =
      -EVSLCL_NET_TIMEOUT ∧
    -EVSLCL_NET_TIMEOUT = -105 ∧
    (vslcl_call_function client_open (fun _ => RecvEvent.timeout) 1 [6, 7]).2.1 = [6, 7] ∧
    (vslcl_call_function client_open (fun _ => RecvEvent.timeout) 1 [6, 7]).2.2.sent =
      client_open.sent ++ [(pl_make_packet
        ⟨PL_PTYPE_REQ, PL_MODE_CLN, to_unsigned 1, [to_unsigned 6, to_unsigned 7]⟩
        client_open.sndpacket PL_PACKETSIZE).2] ∧
    (vslcl_call_function client_open (fun _ => RecvEvent.timeout) 1 [6, 7]).2.2.timeouts =
      client_open.timeouts ++ [5] :=
  client_timeout client_open (fun _ => RecvEvent.timeout) 1 6 7 (by decide) rfl

theorem vslcl_Multiply_open (c : ClientState) (net : List Nat → RecvEvent)
    (op1 op2 result : Int) (hopen : c.iVSLCLStatus = VSLCL_STATUS_ON) :
    vslcl_Multiply c net op1 op2 result =
      (if (vslcl_call_function c net (PL_FID_MUL : Nat) [op1, op2]).1 < 0 then
        ((vslcl_call_function c net (PL_FID_MUL : Nat) [op1, op2]).1, result,
          (vslcl_call_function c net (PL_FID_MUL : Nat) [op1, op2]).2.2)
      else
        ((vslcl_call_function c net (PL_FID_MUL : Nat) [op1, op2]).1,
          (vslcl_call_function c net (PL_FID_MUL : Nat) [op1, op2]).2.1.getD 0 0,
          (vslcl_call_function c net (PL_FID_MUL : Nat) [op1, op2]).2.2)) := by
  have hnot : ¬ c.iVSLCLStatus ≠ VSLCL_STATUS_ON := not_not.mpr hopen
  unfold vslcl_Multiply
  rw [if_neg hnot]
  dsimp only
  rw [vslcl_params_eq]

theorem vslcl_Divide_open (c : ClientState) (net : List Nat → RecvEvent)
    (op1 op2 result : Int) (hopen : c.iVSLCLStatus = VSLCL_STATUS_ON) :
    vslcl_Divide c net op1 op2 result =
      (if (vslcl_call_function c net (PL_FID_DIV : Nat) [op1, op2]).1 < 0 then
        ((vslcl_call_function c net (PL_FID_DIV : Nat) [op1, op2]).1, result,
          (vslcl_call_function c net (PL_FID_DIV : Nat) [op1, op2]).2.2)
      else
        ((vslcl_call_function c net (PL_FID_DIV : Nat) [op1, op2]).1,
          (vslcl_call_function c net (PL_FID_DIV : Nat) [op1, op2]).2.1.getD 0 0,
          (vslcl_call_function c net (PL_FID_DIV : Nat) [op1, op2]).2.2)) := by
  have hnot : ¬ c.iVSLCLStatus ≠ VSLCL_STATUS_ON := not_not.mpr hopen
  unfold vslcl_Divide
  rw [if_neg hnot]
  dsimp only
  rw [vslcl_params_eq]

theorem to_int_uneg (code : Nat) (h1 : 1 ≤ code) (h2 : code ≤ 2147483648) :
    to_int (uneg code) = -(code : Int) := by
  unfold to_int uneg
  split <;> omega

/-- C11, as stated, fails. An Error reply with code 0 makes
`vslcl_call_function` return 0, the success value, and `vslcl_Multiply` then
writes the result; an Error reply with code `2 ^ 31 + 1` makes it return
`2 ^ 31 - 1`, which is neither negative nor the negative of the code. -/
theorem client_error_propagation_counterexample :
    decode [0, 0, 0, 3, 0, 0, 0, 2, 0, 0, 0, 1, 0, 0, 0, 0, 0, 0, 0, 0] =
      (E_PL_NOERROR, ⟨PL_PTYPE_ERR, PL_MODE_SRV, 1, [0, 0]⟩) ∧
    (vslcl_call_function client_open
      (fun _ => RecvEvent.datagram [0, 0, 0, 3, 0, 0, 0, 2, 0, 0, 0, 1, 0, 0, 0, 0, 0, 0, 0, 0])
      1 [6, 7]).1 = EVSLCL_NOERROR ∧
    (vslcl_Multiply client_open
      (fun _ => RecvEvent.datagram [0, 0, 0, 3, 0, 0, 0, 2, 0, 0, 0, 1, 0, 0, 0, 0, 0, 0, 0, 0])
      6 7 99).1 = 0 ∧
    (vslcl_Multiply client_open
      (fun _ => RecvEvent.datagram [0, 0, 0, 3, 0, 0, 0, 2, 0, 0, 0, 1, 0, 0, 0, 0, 0, 0, 0, 0])
      6 7 99).2.1 = 0 ∧
    decode [0, 0, 0, 3, 0, 0, 0, 2, 0, 0, 0, 1, 128, 0, 0, 1, 0, 0, 0, 0] =
      (E_PL_NOERROR, ⟨PL_PTYPE_ERR, PL_MODE_SRV, 1, [2147483649, 0]⟩) ∧
    (vslcl_call_function client_open
      (fun _ => RecvEvent.datagram [0, 0, 0, 3, 0, 0, 0, 2, 0, 0, 0, 1, 128, 0, 0, 1, 0, 0, 0, 0])
      1 [6, 7]).1 = 2147483647 := by
  decide

/-- C11, amended. For every reply of full size that decodes to an Error packet
with a code `1 <= code <= 2 ^ 31` in operand 0 (the codes 1 to 5 of the protocol
are among them), `vslcl_call_function` returns `-code`, which is negative and so
not the success value 0; `vslcl_Multiply` and `vslcl_Divide`, the library open,
return `-code` and do not write the result. -/
theorem client_error_propagation (c : ClientState) (net : List Nat → RecvEvent)
    (fid x y result : Int) (reply : List Nat) (m f code b : Nat) (hc : c.wf)
    (hnet : net (pl_make_packet
        ⟨PL_PTYPE_REQ, PL_MODE_CLN, to_unsigned fid, [to_unsigned x, to_unsigned y]⟩
        c.sndpacket PL_PACKETSIZE).2 = RecvEvent.datagram reply)
    (hdec : decode reply = (E_PL_NOERROR, ⟨PL_PTYPE_ERR, m, f, [code, b]⟩))
    (h1 : 1 ≤ code) (h2 : code ≤ 2 ^ 31) :
    (vslcl_call_function c net fid [x, y]).1 = -(code : Int) ∧
    (vslcl_call_function c net fid [x, y]).1 < 0 ∧
    (vslcl_call_function c net fid [x, y]).1 ≠ EVSLCL_NOERROR ∧
    (c.iVSLCLStatus = VSLCL_STATUS_ON → fid = ((PL_FID_MUL : Nat) : Int) →
      (vslcl_Multiply c net x y result).1 = -(code : Int) ∧
      (vslcl_Multiply c net x y result).2.1 = result) ∧
    (c.iVSLCLStatus = VSLCL_STATUS_ON → fid = ((PL_FID_DIV : Nat) : Int) →
      (vslcl_Divide c net x y result).1 = -(code : Int) ∧
      (vslcl_Divide c net x y result).2.1 = result) := by
  have h2n : code ≤ 2147483648 := by
    norm_num at h2
    exact h2
  obtain ⟨hr, _⟩ := vslcl_call_function_full c net fid x y reply _ hc hnet hdec
  have hr0 : (vslcl_call_function c net fid [x, y]).1 = -(code : Int) := by
    rw [hr, if_pos rfl]
    exact to_int_uneg code h1 h2n
  have hneg : -(code : Int) < 0 := by omega
  refine ⟨hr0, ?_, ?_, ?_, ?_⟩
  · rw [hr0]
    exact hneg
  · rw [hr0]
    unfold EVSLCL_NOERROR
    omega
  · intro hopen hf
    subst hf
    rw [vslcl_Multiply_open c net x y result hopen, hr0, if_pos hneg]
    exact ⟨rfl, rfl⟩
  · intro hopen hf
    subst hf
    rw [vslcl_Divide_open c net x y result hopen, hr0, if_pos hneg]
    exact ⟨rfl, rfl⟩

theorem client_error_propagation_witness :
    (vslcl_call_function client_open
      (fun _ => RecvEvent.datagram [0, 0, 0, 3, 0, 0, 0, 2, 0, 0, 0, 2, 0, 0, 0, 4, 0, 0, 0, 0])
      ((PL_FID_DIV : Nat) : Int) [5, 0]).1 = -((4 : Nat) : Int) ∧
    (vslcl_Divide client_open
      (fun _ => RecvEvent.datagram [0, 0, 0, 3, 0, 0, 0, 2, 0, 0, 0, 2, 0, 0, 0, 4, 0, 0, 0, 0])
      5 0 99).1 = -((4 : Nat) : Int) ∧
    (vslcl_Divide client_open
      (fun _ => RecvEvent.datagram [0, 0, 0, 3, 0, 0, 0, 2, 0, 0, 0, 2, 0, 0, 0, 4, 0, 0, 0, 0])
      5 0 99).2.1 = 99 :=
  ⟨(client_error_propagation client_open
      (fun _ => RecvEvent.datagram [0, 0, 0, 3, 0, 0, 0, 2, 0, 0, 0, 2, 0, 0, 0, 4, 0, 0, 0, 0])
      ((PL_FID_DIV : Nat) : Int) 5 0 99
      [0, 0, 0, 3, 0, 0, 0, 2, 0, 0, 0, 2, 0, 0, 0, 4, 0, 0, 0, 0] 2 2 4 0
      (by decide) rfl (by decide) (by decide) (by decide)).1,
   (client_error_propagation client_open
      (fun _ => RecvEvent.datagram [0, 0, 0, 3, 0, 0, 0, 2, 0, 0, 0, 2, 0, 0, 0, 4, 0, 0, 0, 0])
      ((PL_FID_DIV : Nat) : Int) 5 0 99
      [0, 0, 0, 3, 0, 0, 0, 2, 0, 0, 0, 2, 0, 0, 0, 4, 0, 0, 0, 0] 2 2 4 0
      (by decide) rfl (by decide) (by decide) (by decide)).2.2.2.2 (by decide) rfl⟩

theorem to_int_to_unsigned (i : Int) (h : is_int i) : to_int (to_unsigned i) = i := by
  obtain ⟨hl, hu⟩ := h
  unfold to_int to_unsigned
  split <;> omega

/-- C12, as stated, fails. On a reply of 19 bytes `pl_extr_packet` fails, and
`vslcl_call_function` returns `-EVSLCL_UNKNOWN_ERROR`, the very code of an
unknown reply of the server: there is no decode error of its own. -/
theorem client_decode_failure_counterexample :
    (decode (List.replicate 19 0)).1 = -E_PL_INSUFFICIENTBUFFER ∧
    (vslcl_call_function client_open (fun _ => RecvEvent.datagram (List.replicate 19 0))
      1 [6, 7]).1 = -EVSLCL_UNKNOWN_ERROR := by
  decide

/-- C12, amended. For every received reply shorter than the 20 bytes of a
packet, `vslcl_call_function` fails with `-EVSLCL_UNKNOWN_ERROR = -104`, the
code it also gives for a reply of unknown kind; this differs from the timeout
code -105 and from success, and the operand array of the caller keeps its
values: the reply is not copied into it. -/
theorem client_decode_failure (c : ClientState) (net : List Nat → RecvEvent)
    (fid x y : Int) (reply : List Nat) (hc : c.wf) (hx : is_int x) (hy : is_int y)
    (hnet : net (pl_make_packet
        ⟨PL_PTYPE_REQ, PL_MODE_CLN, to_unsigned fid, [to_unsigned x, to_unsigned y]⟩
        c.sndpacket PL_PACKETSIZE).2 = RecvEvent.datagram reply)
    (hshort : reply.length < 20) :
    (decode reply).1 = -E_PL_INSUFFICIENTBUFFER ∧
    (vslcl_call_function c net fid [x, y]).1 = -EVSLCL_UNKNOWN_ERROR ∧
    -EVSLCL_UNKNOWN_ERROR = -104 ∧
    (vslcl_call_function c net fid [x, y]).1 ≠ -EVSLCL_NET_TIMEOUT ∧
    (vslcl_call_function c net fid [x, y]).1 ≠ EVSLCL_NOERROR ∧
    (vslcl_call_function c net fid [x, y]).2.1 = [x, y] := by
  have hl : reply.length < PL_PACKETSIZE := hshort
  obtain ⟨hr, hp⟩ := vslcl_call_function_short c net fid x y reply hc hnet hl
  refine ⟨?_, hr, rfl, ?_, ?_, ?_⟩
  · unfold decode
    rw [pl_extr_packet, if_pos hl]
  · rw [hr]
    decide
  · rw [hr]
    decide
  · rw [hp, to_int_to_unsigned x hx, to_int_to_unsigned y hy]

theorem client_decode_failure_witness :
    (decode [0, 0, 0, 2, 0, 0, 0, 2, 0, 0, 0, 1, 0, 0, 0, 42, 0, 0, 0]).1 =
      -E_PL_INSUFFICIENTBUFFER ∧
    (vslcl_call_function client_open
      (fun _ => RecvEvent.datagram [0, 0, 0, 2, 0, 0, 0, 2, 0, 0, 0, 1, 0, 0, 0, 42, 0, 0, 0])
      1 [6, -7]).1 = -EVSLCL_UNKNOWN_ERROR ∧
    -EVSLCL_UNKNOWN_ERROR = -104 ∧
    (vslcl_call_function client_open
      (fun _ => RecvEvent.datagram [0, 0, 0, 2, 0, 0, 0, 2, 0, 0, 0, 1, 0, 0, 0, 42, 0, 0, 0])
      1 [6, -7]).1 ≠ -EVSLCL_NET_TIMEOUT ∧
    (vslcl_call_function client_open
      (fun _ => RecvEvent.datagram [0, 0, 0, 2, 0, 0, 0, 2, 0, 0, 0, 1, 0, 0, 0, 42, 0, 0, 0])
      1 [6, -7]).1 ≠ EVSLCL_NOERROR ∧
    (vslcl_call_function client_open
      (fun _ => RecvEvent.datagram [0, 0, 0, 2, 0, 0, 0, 2, 0, 0, 0, 1, 0, 0, 0, 42, 0, 0, 0])
      1 [6, -7]).2.1 = [6, -7] :=
  client_decode_failure client_open
    (fun _ => RecvEvent.datagram [0, 0, 0, 2, 0, 0, 0, 2, 0, 0, 0, 1, 0, 0, 0, 42, 0, 0, 0])
    1 6 (-7) [0, 0, 0, 2, 0, 0, 0, 2, 0, 0, 0, 1, 0, 0, 0, 42, 0, 0, 0]
    (by decide) (by decide) (by decide) rfl (by decide)

theorem c_string_append_zero (address rest : List Nat) (hz : ∀ ch ∈ address, ch ≠ 0) :
    c_string (address ++ 0 :: rest) = address := by
  induction address with
  | nil => simp [c_string]
  | cons a t ih =>
    have ha : a ≠ 0 := hz a (by simp)
    have ht : ∀ ch ∈ t, ch ≠ 0 := fun ch hch => hz ch (by simp [hch])
    have ih2 := ih ht
    have hb : (a != 0) = true := by simp [ha]
    unfold c_string at ih2 ⊢
    rw [List.cons_append, List.takeWhile_cons, hb, ih2]
    rfl

/-- C14, as stated, fails. The empty address is accepted: the call returns
`EVSLCL_NOERROR` and the stored address, the default before, is the empty
string after. -/
theorem set_unicast_address_counterexample :
    (vslcl_SetUnicastAddress client_init []).1 = EVSLCL_NOERROR ∧
    c_string client_init.unicast_addr = VSLS_UNICAST_ADDRESS ∧
    c_string (vslcl_SetUnicastAddress client_init []).2.unicast_addr = [] ∧
    (vslcl_SetUnicastAddress client_init []).2.unicast_addr ≠ client_init.unicast_addr := by
  decide

/-- C14, amended. For every address longer than `IP_ADDR_LEN = 16` characters
`vslcl_SetUnicastAddress` fails with `-EVSLCL_WRONGADDRLEN` and leaves the
stored address unchanged; for every address shorter than 16 characters, the
empty one included, it succeeds and the string stored in `unicast_addr` becomes
that address. -/
theorem set_unicast_address (c : ClientState) (address : List Nat) (hc : c.wf)
    (hz : ∀ ch ∈ address, ch ≠ 0) :
    IP_ADDR_LEN = 16 ∧ -EVSLCL_WRONGADDRLEN ≠ EVSLCL_NOERROR ∧
    (IP_ADDR_LEN < address.length →
      vslcl_SetUnicastAddress c address = (-EVSLCL_WRONGADDRLEN, c)) ∧
    (address.length < IP_ADDR_LEN →
      (vslcl_SetUnicastAddress c address).1 = EVSLCL_NOERROR ∧
      c_string (vslcl_SetUnicastAddress c address).2.unicast_addr = address ∧
      (vslcl_SetUnicastAddress c address).2.unicast_addr.length = IP_ADDR_LEN) := by
  refine ⟨rfl, by decide, ?_, ?_⟩
  · intro hlong
    unfold vslcl_SetUnicastAddress
    rw [if_pos hlong]
  · intro hshort
    have hnot : ¬ address.length > IP_ADDR_LEN := by omega
    have hdrop : c.unicast_addr.drop IP_ADDR_LEN = [] := by
      apply List.drop_eq_nil_of_le
      rw [hc.2.2.2]
    have hrep : List.replicate (IP_ADDR_LEN - address.length) 0 =
        0 :: List.replicate (IP_ADDR_LEN - address.length - 1) 0 := by
      have : IP_ADDR_LEN - address.length = (IP_ADDR_LEN - address.length - 1) + 1 := by omega
      rw [this, List.replicate_succ]
      simp
    have htake : (address ++ List.replicate (IP_ADDR_LEN - address.length) 0).take IP_ADDR_LEN =
        address ++ List.replicate (IP_ADDR_LEN - address.length) 0 := by
      apply List.take_of_length_le
      simp
      omega
    unfold vslcl_SetUnicastAddress
    rw [if_neg hnot]
    dsimp only
    rw [hdrop, List.append_nil, htake]
    refine ⟨rfl, ?_, ?_⟩
    · rw [hrep]
      exact c_string_append_zero address _ hz
    · simp
      omega

theorem set_unicast_address_witness :
    IP_ADDR_LEN = 16 ∧ -EVSLCL_WRONGADDRLEN ≠ EVSLCL_NOERROR ∧
    (IP_ADDR_LEN < ([49, 48, 46, 48, 46, 48, 46, 49] : List Nat).length →
      vslcl_SetUnicastAddress client_init [49, 48, 46, 48, 46, 48, 46, 49] =
        (-EVSLCL_WRONGADDRLEN, client_init)) ∧
    (([49, 48, 46, 48, 46, 48, 46, 49] : List Nat).length < IP_ADDR_LEN →
      (vslcl_SetUnicastAddress client_init [49, 48, 46, 48, 46, 48, 46, 49]).1 =
        EVSLCL_NOERROR ∧
      c_string (vslcl_SetUnicastAddress client_init
        [49, 48, 46, 48, 46, 48, 46, 49]).2.unicast_addr = [49, 48, 46, 48, 46, 48, 46, 49] ∧
      (vslcl_SetUnicastAddress client_init
        [49, 48, 46, 48, 46, 48, 46, 49]).2.unicast_addr.length = IP_ADDR_LEN) :=
  set_unicast_address client_init [49, 48, 46, 48, 46, 48, 46, 49] (by decide) (by decide)

/-- C16. Client classification of replies of full size, received without
timeout and decoding to kind `k`, mode `m`, function id `f` and operands
`[a, b]`: if `k` is Response, `vslcl_call_function` returns 0 and the operand
array of the caller holds the operands of the reply, as `int` values of the same
32 bits, so that `vslcl_Multiply` and `vslcl_Divide`, the library open, return 0
and write operand 0 of the reply to the result; if `k` is neither Response nor
Error, `vslcl_call_function` returns `-EVSLCL_UNKNOWN_ERROR = -104`. This holds
for every `m` and `f`. -/
theorem client_classification (c : ClientState) (net : List Nat → RecvEvent)
    (fid x y result : Int) (reply : List Nat) (k m f a b : Nat) (hc : c.wf)
    (hnet : net (pl_make_packet
        ⟨PL_PTYPE_REQ, PL_MODE_CLN, to_unsigned fid, [to_unsigned x, to_unsigned y]⟩
        c.sndpacket PL_PACKETSIZE).2 = RecvEvent.datagram reply)
    (hdec : decode reply = (E_PL_NOERROR, ⟨k, m, f, [a, b]⟩)) :
    (k = PL_PTYPE_RSP →
      (vslcl_call_function c net fid [x, y]).1 = EVSLCL_NOERROR ∧
      (vslcl_call_function c net fid [x, y]).2.1 = [to_int a, to_int b] ∧
      to_unsigned (to_int a) = a ∧ to_unsigned (to_int b) = b ∧
      (c.iVSLCLStatus = VSLCL_STATUS_ON → fid = ((PL_FID_MUL : Nat) : Int) →
        (vslcl_Multiply c net x y result).1 = 0 ∧
        (vslcl_Multiply c net x y result).2.1 = to_int a) ∧
      (c.iVSLCLStatus = VSLCL_STATUS_ON → fid = ((PL_FID_DIV : Nat) : Int) →
        (vslcl_Divide c net x y result).1 = 0 ∧
        (vslcl_Divide c net x y result).2.1 = to_int a)) ∧
    (k ≠ PL_PTYPE_RSP → k ≠ PL_PTYPE_ERR →
      (vslcl_call_function c net fid [x, y]).1 = -EVSLCL_UNKNOWN_ERROR ∧
      -EVSLCL_UNKNOWN_ERROR = -104) := by
  obtain ⟨hr, hp⟩ := vslcl_call_function_full c net fid x y reply _ hc hnet hdec
  have hwf : (⟨k, m, f, [a, b]⟩ : pl_data).wf := by
    have := decode_wf reply (decode_full reply _ hdec)
    rw [hdec] at this
    exact this
  have ha : a < 4294967296 := hwf.2.2.2.2 a (by simp)
  have hb : b < 4294967296 := hwf.2.2.2.2 b (by simp)
  constructor
  · intro hk
    subst hk
    have hr0 : (vslcl_call_function c net fid [x, y]).1 = 0 := by
      rw [hr]
      rfl
    have hp0 : (vslcl_call_function c net fid [x, y]).2.1 = [to_int a, to_int b] := by
      rw [hp]
      rfl
    have hnot : ¬ ((0 : Int) < 0) := by decide
    refine ⟨hr0, hp0, ?_, ?_, ?_, ?_⟩
    · rw [to_unsigned_to_int, Nat.mod_eq_of_lt ha]
    · rw [to_unsigned_to_int, Nat.mod_eq_of_lt hb]
    · intro hopen hf
      subst hf
      rw [vslcl_Multiply_open c net x y result hopen, hr0, if_neg hnot, hp0]
      exact ⟨rfl, rfl⟩
    · intro hopen hf
      subst hf
      rw [vslcl_Divide_open c net x y result hopen, hr0, if_neg hnot, hp0]
      exact ⟨rfl, rfl⟩
  · intro hk1 hk2
    refine ⟨?_, rfl⟩
    rw [hr]
    dsimp only
    rw [if_neg hk2, if_neg hk1]

theorem client_classification_witness :
    ((vslcl_call_function client_open
        (fun _ => RecvEvent.datagram
          [0, 0, 0, 2, 0, 0, 0, 1, 0, 0, 0, 77, 255, 255, 255, 255, 0, 0, 0, 9])
        ((PL_FID_MUL : Nat) : Int) [6, 7]).1 = EVSLCL_NOERROR ∧
      (vslcl_call_function client_open
        (fun _ => RecvEvent.datagram
          [0, 0, 0, 2, 0, 0, 0, 1, 0, 0, 0, 77, 255, 255, 255, 255, 0, 0, 0, 9])
        ((PL_FID_MUL : Nat) : Int) [6, 7]).2.1 = [to_int 4294967295, to_int 9] ∧
      (vslcl_Multiply client_open
        (fun _ => RecvEvent.datagram
          [0, 0, 0, 2, 0, 0, 0, 1, 0, 0, 0, 77, 255, 255, 255, 255, 0, 0, 0, 9])
        6 7 99).2.1 = -1) ∧
    (vslcl_call_function client_open
        (fun _ => RecvEvent.datagram
          [0, 0, 0, 1, 0, 0, 0, 2, 0, 0, 0, 1, 0, 0, 0, 42, 0, 0, 0, 9])
        ((PL_FID_MUL : Nat) : Int) [6, 7]).1 = -EVSLCL_UNKNOWN_ERROR :=
  ⟨⟨((client_classification client_open
        (fun _ => RecvEvent.datagram
          [0, 0, 0, 2, 0, 0, 0, 1, 0, 0, 0, 77, 255, 255, 255, 255, 0, 0, 0, 9])
        ((PL_FID_MUL : Nat) : Int) 6 7 99
        [0, 0, 0, 2, 0, 0, 0, 1, 0, 0, 0, 77, 255, 255, 255, 255, 0, 0, 0, 9]
        2 1 77 4294967295 9 (by decide) rfl (by decide)).1 rfl).1,
     ((client_classification client_open
        (fun _ => RecvEvent.datagram
          [0, 0, 0, 2, 0, 0, 0, 1, 0, 0, 0, 77, 255, 255, 255, 255, 0, 0, 0, 9])
        ((PL_FID_MUL : Nat) : Int) 6 7 99
        [0, 0, 0, 2, 0, 0, 0, 1, 0, 0, 0, 77, 255, 255, 255, 255, 0, 0, 0, 9]
        2 1 77 4294967295 9 (by decide) rfl (by decide)).1 rfl).2.1,
     (((client_classification client_open
        (fun _ => RecvEvent.datagram
          [0, 0, 0, 2, 0, 0, 0, 1, 0, 0, 0, 77, 255, 255, 255, 255, 0, 0, 0, 9])
        ((PL_FID_MUL : Nat) : Int) 6 7 99
        [0, 0, 0, 2, 0, 0, 0, 1, 0, 0, 0, 77, 255, 255, 255, 255, 0, 0, 0, 9]
        2 1 77 4294967295 9 (by decide) rfl (by decide)).1 rfl).2.2.2.2.1
        (by decide) rfl).2⟩,
   ((client_classification client_open
        (fun _ => RecvEvent.datagram
          [0, 0, 0, 1, 0, 0, 0, 2, 0, 0, 0, 1, 0, 0, 0, 42, 0, 0, 0, 9])
        ((PL_FID_MUL : Nat) : Int) 6 7 99
        [0, 0, 0, 1, 0, 0, 0, 2, 0, 0, 0, 1, 0, 0, 0, 42, 0, 0, 0, 9]
        1 2 1 42 9 (by decide) rfl (by decide)).2 (by decide) (by decide)).1⟩

/-! ## Replies of the daemon over a run, and the stored address -/

/-- On a datagram of full size the datagram sent by the daemon does not depend
on the state the iteration starts in. -/
theorem main_loop_iteration_full_history (s1 s2 : ServerState) (dgram : List Nat)
    (h1 : s1.wf) (h2 : s2.wf) (hfull : PL_PACKETSIZE ≤ dgram.length) :
    (main_loop_iteration s1 (RecvEvent.datagram dgram)).2 =
      (main_loop_iteration s2 (RecvEvent.datagram dgram)).2 := by
  have hd1 : s1.sndpacket.drop PL_PACKETSIZE = [] := by
    apply List.drop_eq_nil_of_le
    rw [h1.2.1]
  have hd2 : s2.sndpacket.drop PL_PACKETSIZE = [] := by
    apply List.drop_eq_nil_of_le
    rw [h2.2.1]
  rw [main_loop_iteration_full s1 dgram h1 hfull, main_loop_iteration_full s2 dgram h2 hfull,
    pl_make_packet_eq _ s1.sndpacket _ (le_refl _) (le_of_eq h1.2.1.symm),
    pl_make_packet_eq _ s2.sndpacket _ (le_refl _) (le_of_eq h2.2.1.symm), hd1, hd2]

/-- C17. The code at the failing input: the same datagram of 12 bytes is
answered with function id 2 and operand 4 after a Divide request `[20, 4]`, and
with function id 1 and operand 7 after a Multiply request `[6, 7]`. The reply
to a datagram too short to decode carries the function id and operand 1 of the
request before. -/
theorem server_reply_history :
    (main_loop server_zero
      [RecvEvent.datagram [0, 0, 0, 1, 0, 0, 0, 1, 0, 0, 0, 2, 0, 0, 0, 20, 0, 0, 0, 4],
       RecvEvent.datagram [0, 0, 0, 1, 0, 0, 0, 1, 0, 0, 0, 1]]).2 =
      [[0, 0, 0, 2, 0, 0, 0, 2, 0, 0, 0, 2, 0, 0, 0, 5, 0, 0, 0, 4],
       [0, 0, 0, 3, 0, 0, 0, 2, 0, 0, 0, 2, 0, 0, 0, 1, 0, 0, 0, 4]] ∧
    (main_loop server_zero
      [RecvEvent.datagram [0, 0, 0, 1, 0, 0, 0, 1, 0, 0, 0, 1, 0, 0, 0, 6, 0, 0, 0, 7],
       RecvEvent.datagram [0, 0, 0, 1, 0, 0, 0, 1, 0, 0, 0, 1]]).2 =
      [[0, 0, 0, 2, 0, 0, 0, 2, 0, 0, 0, 1, 0, 0, 0, 42, 0, 0, 0, 7],
       [0, 0, 0, 3, 0, 0, 0, 2, 0, 0, 0, 1, 0, 0, 0, 1, 0, 0, 0, 7]] ∧
    (main_loop_iteration
      (main_loop server_zero
        [RecvEvent.datagram [0, 0, 0, 1, 0, 0, 0, 1, 0, 0, 0, 2, 0, 0, 0, 20, 0, 0, 0, 4]]).1
      (RecvEvent.datagram [0, 0, 0, 1, 0, 0, 0, 1, 0, 0, 0, 1])).2 ≠
    (main_loop_iteration
      (main_loop server_zero
        [RecvEvent.datagram [0, 0, 0, 1, 0, 0, 0, 1, 0, 0, 0, 1, 0, 0, 0, 6, 0, 0, 0, 7]]).1
      (RecvEvent.datagram [0, 0, 0, 1, 0, 0, 0, 1, 0, 0, 0, 1])).2 := by
  decide

/-- C18. The code at the failing input: the address `192.168.100.2000` of
exactly `IP_ADDR_LEN = 16` characters is accepted, and after the call the 16
bytes of `unicast_addr` are these characters: the buffer holds no zero byte. -/
theorem unicast_addr_unterminated :
    ([49, 57, 50, 46, 49, 54, 56, 46, 49, 48, 48, 46, 50, 48, 48, 48] : List Nat).length =
      IP_ADDR_LEN ∧
    (vslcl_SetUnicastAddress client_init
      [49, 57, 50, 46, 49, 54, 56, 46, 49, 48, 48, 46, 50, 48, 48, 48]).1 = EVSLCL_NOERROR ∧
    (vslcl_SetUnicastAddress client_init
      [49, 57, 50, 46, 49, 54, 56, 46, 49, 48, 48, 46, 50, 48, 48, 48]).2.unicast_addr =
      [49, 57, 50, 46, 49, 54, 56, 46, 49, 48, 48, 46, 50, 48, 48, 48] ∧
    (vslcl_SetUnicastAddress client_init
      [49, 57, 50, 46, 49, 54, 56, 46, 49, 48, 48, 46, 50, 48, 48, 48]).2.unicast_addr.length =
      IP_ADDR_LEN ∧
    0 ∉ (vslcl_SetUnicastAddress client_init
      [49, 57, 50, 46, 49, 54, 56, 46, 49, 48, 48, 46, 50, 48, 48, 48]).2.unicast_addr := by
  decide

end VSLab
